import Mathlib

/-!
# Verification of the LibAFL Frida ASan runtime specification

This file gives a shallow embedding of `libafl_frida/src/asan/asan_rt.rs`
(the `AsanRuntime`) and proves or refutes the specification claims about it.

Machine integers are modelled as `Nat` with explicit `% 2^w` where overflow
matters.  The x86-64 and AArch64 check-blob bodies are translated
instruction by instruction from the `dynasm!` blocks in
`generate_shadow_check_blob` / `generate_shadow_check_exact_blob`; the fault
handler, the instruction filter, the lifecycle functions and the
stalked-address map are translated from the corresponding Rust functions.
-/

namespace LibAFLAsan

/-! ## Bit toolkit

Generic lemmas about `Nat` bitwise operations used to reason about the
check-blob arithmetic. -/

theorem or_eq_add_of_and_eq_zero (a : Nat) :
    ∀ b : Nat, a &&& b = 0 → a ||| b = a + b := by
  induction a using Nat.binaryRec with
  | z => intro b _; simp
  | f ba m ih =>
    intro b hb
    rw [← Nat.bit_testBit_zero_shiftRight_one b] at hb ⊢
    rw [Nat.land_bit, Nat.bit_val] at hb
    have htn : (ba && b.testBit 0).toNat ≤ 1 := Bool.toNat_le _
    have hm : m &&& b >>> 1 = 0 := by omega
    have hc : (ba && b.testBit 0) = false := by
      rcases h1 : (ba && b.testBit 0)
      · rfl
      · rw [h1] at hb; simp at hb
    rw [Nat.lor_bit, Nat.bit_val, Nat.bit_val, Nat.bit_val, ih _ hm]
    have hor : (ba || b.testBit 0).toNat = ba.toNat + (b.testBit 0).toNat := by
      rcases hba : ba <;> rw [hba] at hc <;> rcases hb0 : b.testBit 0 <;> rw [hb0] at hc <;>
        simp_all
    omega

theorem and_mask_split (x mhi mlo k : Nat) (h : mlo < 2 ^ k) :
    x &&& (2 ^ k * mhi + mlo) = 2 ^ k * (x >>> k &&& mhi) + (x % 2 ^ k &&& mlo) := by
  apply Nat.eq_of_testBit_eq
  intro j
  have hlt : x % 2 ^ k &&& mlo < 2 ^ k := Nat.lt_of_le_of_lt Nat.and_le_right h
  rw [Nat.testBit_and, Nat.testBit_mul_pow_two_add _ h, Nat.testBit_mul_pow_two_add _ hlt]
  by_cases hj : j < k
  · simp [hj, Nat.testBit_mod_two_pow]
  · simp [hj, Nat.testBit_shiftRight, Nat.add_sub_cancel' (Nat.le_of_not_lt hj)]

theorem and_and_of_mask_disjoint (x y m1 m2 : Nat) (h : m1 &&& m2 = 0) :
    (x &&& m1) &&& (y &&& m2) = 0 := by
  rw [Nat.land_assoc, ← Nat.land_assoc m1 y m2, Nat.land_comm m1 y,
    Nat.land_assoc y m1 m2, h, Nat.and_zero, Nat.and_zero]

theorem and_1 (x : Nat) : x &&& 1 = x % 2 := Nat.and_one_is_mod x

theorem and_3 (x : Nat) : x &&& 3 = x % 4 := by
  have h := Nat.and_pow_two_sub_one_eq_mod x 2
  norm_num at h
  exact h

theorem and_7 (x : Nat) : x &&& 7 = x % 8 := by
  have h := Nat.and_pow_two_sub_one_eq_mod x 3
  norm_num at h
  exact h

theorem and_15 (x : Nat) : x &&& 15 = x % 16 := by
  have h := Nat.and_pow_two_sub_one_eq_mod x 4
  norm_num at h
  exact h

theorem and_255 (x : Nat) : x &&& 255 = x % 256 := by
  have h := Nat.and_pow_two_sub_one_eq_mod x 8
  norm_num at h
  exact h

theorem and_65535 (x : Nat) : x &&& 65535 = x % 65536 := by
  have h := Nat.and_pow_two_sub_one_eq_mod x 16
  norm_num at h
  exact h

theorem and_240 (x : Nat) : x &&& 240 = 16 * (x / 16 % 16) := by
  have h := and_mask_split x 15 0 4 (by norm_num)
  rw [Nat.shiftRight_eq_div_pow, and_15, Nat.and_zero] at h
  norm_num at h
  rw [h]
  try clear h
  try omega

theorem and_5 (x : Nat) : x &&& 5 = 4 * (x / 4 % 2) + x % 2 := by
  have h := and_mask_split x 1 1 2 (by norm_num)
  rw [Nat.shiftRight_eq_div_pow, and_1, and_1] at h
  norm_num at h
  rw [h]
  try clear h
  try omega

theorem and_13 (x : Nat) : x &&& 13 = 4 * (x / 4 % 4) + x % 2 := by
  have h := and_mask_split x 3 1 2 (by norm_num)
  rw [Nat.shiftRight_eq_div_pow, and_3, and_1] at h
  norm_num at h
  rw [h]
  try clear h
  try omega

theorem and_51 (x : Nat) : x &&& 51 = 16 * (x / 16 % 4) + x % 4 := by
  have h := and_mask_split x 3 3 4 (by norm_num)
  rw [Nat.shiftRight_eq_div_pow, and_3, and_3] at h
  norm_num at h
  rw [h]
  try clear h
  try omega

theorem and_85 (x : Nat) :
    x &&& 85 = 64 * (x / 64 % 2) + 16 * (x / 16 % 2) + 4 * (x / 4 % 2) + x % 2 := by
  have h := and_mask_split x 5 5 4 (by norm_num)
  rw [Nat.shiftRight_eq_div_pow, and_5, and_5] at h
  norm_num at h
  rw [h]
  try clear h
  try omega

theorem and_213 (x : Nat) :
    x &&& 213 = 128 * (x / 128 % 2) + 64 * (x / 64 % 2) + 16 * (x / 16 % 2) +
      4 * (x / 4 % 2) + x % 2 := by
  have h := and_mask_split x 13 5 4 (by norm_num)
  rw [Nat.shiftRight_eq_div_pow, and_13, and_5] at h
  norm_num at h
  rw [h]
  try clear h
  try omega

theorem and_243 (x : Nat) : x &&& 243 = 16 * (x / 16 % 16) + x % 4 := by
  have h := and_mask_split x 15 3 4 (by norm_num)
  rw [Nat.shiftRight_eq_div_pow, and_15, and_3] at h
  norm_num at h
  rw [h]
  try clear h
  try omega

theorem and_3855 (x : Nat) : x &&& 3855 = 256 * (x / 256 % 16) + x % 16 := by
  have h := and_mask_split x 15 15 8 (by norm_num)
  rw [Nat.shiftRight_eq_div_pow, and_15, and_15] at h
  norm_num at h
  rw [h]
  try clear h
  try omega

theorem and_13107 (x : Nat) :
    x &&& 13107 = 4096 * (x / 4096 % 4) + 256 * (x / 256 % 4) + 16 * (x / 16 % 4) + x % 4 := by
  have h := and_mask_split x 51 51 8 (by norm_num)
  rw [Nat.shiftRight_eq_div_pow, and_51, and_51] at h
  norm_num at h
  rw [h]
  try clear h
  try omega

theorem and_21845 (x : Nat) :
    x &&& 21845 = 16384 * (x / 16384 % 2) + 4096 * (x / 4096 % 2) + 1024 * (x / 1024 % 2) +
      256 * (x / 256 % 2) + 64 * (x / 64 % 2) + 16 * (x / 16 % 2) + 4 * (x / 4 % 2) +
      x % 2 := by
  have h := and_mask_split x 85 85 8 (by norm_num)
  rw [Nat.shiftRight_eq_div_pow, and_85, and_85] at h
  norm_num at h
  rw [h]
  try clear h
  try omega

theorem and_4294963440 (x : Nat) :
    x &&& 4294963440 =
      65536 * (x / 65536 % 65536) + 4096 * (x / 4096 % 16) + 16 * (x / 16 % 16) := by
  have h := and_mask_split x 65535 61680 16 (by norm_num)
  have h2 := and_mask_split (x % 65536) 240 240 8 (by norm_num)
  rw [Nat.shiftRight_eq_div_pow, and_65535] at h
  rw [Nat.shiftRight_eq_div_pow, and_240, and_240] at h2
  norm_num at h h2
  rw [h, h2]
  try clear h h2
  try omega

theorem and_4294964019 (x : Nat) :
    x &&& 4294964019 =
      65536 * (x / 65536 % 65536) + 4096 * (x / 4096 % 16) + 256 * (x / 256 % 4) +
        16 * (x / 16 % 4) + x % 4 := by
  have h := and_mask_split x 65535 62259 16 (by norm_num)
  have h2 := and_mask_split (x % 65536) 243 51 8 (by norm_num)
  rw [Nat.shiftRight_eq_div_pow, and_65535] at h
  rw [Nat.shiftRight_eq_div_pow, and_243, and_51] at h2
  norm_num at h h2
  rw [h, h2]
  try clear h h2
  try omega

theorem and_4294956373_structured (G B1 B0 : Nat) (h1 : B1 < 256) (h0 : B0 < 256) :
    (65536 * G + 256 * B1 + B0) &&& 4294956373 =
      65536 * (G % 65536) +
        256 * (128 * (B1 / 128 % 2) + 64 * (B1 / 64 % 2) + 16 * (B1 / 16 % 2) +
          4 * (B1 / 4 % 2) + B1 % 2) +
        (64 * (B0 / 64 % 2) + 16 * (B0 / 16 % 2) + 4 * (B0 / 4 % 2) + B0 % 2) := by
  have h := and_mask_split (65536 * G + 256 * B1 + B0) 65535 54613 16 (by norm_num)
  have e1 : (65536 * G + 256 * B1 + B0) % 2 ^ 16 = 256 * B1 + B0 := by norm_num; omega
  have e2 : (65536 * G + 256 * B1 + B0) >>> 16 = G := by
    rw [Nat.shiftRight_eq_div_pow]; norm_num; omega
  rw [e1, e2, and_65535] at h
  have h2 := and_mask_split (256 * B1 + B0) 213 85 8 (by norm_num)
  have e3 : (256 * B1 + B0) % 2 ^ 8 = B0 := by norm_num; omega
  have e4 : (256 * B1 + B0) >>> 8 = B1 := by rw [Nat.shiftRight_eq_div_pow]; norm_num; omega
  rw [e3, e4, and_213, and_85] at h2
  norm_num at h h2
  rw [h2] at h
  rw [h]
  try clear h h2
  try omega

/-! ## Check-blob semantic models

The x86-64 blob body (`generate_shadow_check_blob`, x86-64 variant) and the
AArch64 blob bodies (`generate_shadow_check_blob` and
`generate_shadow_check_exact_blob`, AArch64 variants) are translated
instruction by instruction.  Registers are 64-bit (`% 2^64`) or 32-bit
(`% 2^32`) naturals. -/

/-- Model of x86-64 `rol ax, 8`: rotate the low 16 bits of `eax` left by 8
bit positions; the upper bits of the register are unchanged. -/
def rolAx8 (eax : Nat) : Nat :=
  eax / 65536 * 65536 + ((((eax % 65536) <<< 8) % 65536) ||| ((eax % 65536) >>> 8))

/-- The bit rearrangement performed on the loaded 16-bit shadow window by the
x86-64 check blob: the instruction sequence from `rol ax, 8` up to
`movzx edx, ax` (`generate_shadow_check_blob`, x86-64).  32-bit instructions
are modelled with `% 2^32`; negative mask immediates are written as their
unsigned 32-bit values (`-3856 ≡ 4294963440`, `-3277 ≡ 4294964019`,
`-10923 ≡ 4294956373`). -/
def x86BitRearrange (eax0 : Nat) : Nat :=
  -- rol ax, 8
  let eax := rolAx8 eax0
  -- mov ecx, eax ; shr ecx, 4 ; and ecx, 3855
  let ecx := (eax >>> 4) &&& 3855
  -- shl eax, 4 ; and eax, -3856
  let eax := ((eax <<< 4) % 4294967296) &&& 4294963440
  -- or eax, ecx
  let eax := eax ||| ecx
  -- mov ecx, eax ; shr ecx, 2 ; and ecx, 13107
  let ecx := (eax >>> 2) &&& 13107
  -- and eax, -3277
  let eax := eax &&& 4294964019
  -- lea eax, [rcx + 4*rax]
  let eax := (ecx + 4 * eax) % 4294967296
  -- mov ecx, eax ; shr ecx, 1 ; and ecx, 21845
  let ecx := (eax >>> 1) &&& 21845
  -- and eax, -10923
  let eax := eax &&& 4294956373
  -- lea eax, [rcx + 2*rax]
  let eax := (ecx + 2 * eax) % 4294967296
  -- rol ax, 8
  let eax := rolAx8 eax
  -- movzx edx, ax
  eax &&& 65535

/-- The shadow byte address computed by the x86-64 check blob
(`generate_shadow_check_blob`, x86-64): the `[rax + rdx]` address of the
`movzx eax, WORD [rax + rdx]` load, built from `shadow_bit` and the user
address `u` held in `rdi`. -/
def x86ShadowCheckAddr (shadowBit u : Nat) : Nat :=
  -- mov cl, BYTE shadow_bit as i8
  let cl := shadowBit % 256
  -- mov rax, -2 ; shl rax, cl  (64-bit shift uses the low 6 bits of cl)
  let rax := (18446744073709551614 <<< (cl % 64)) % 18446744073709551616
  -- mov rdx, rdi ; shr rdx, 3
  let rdx := u >>> 3
  -- not rax
  let rax := 18446744073709551615 - rax
  -- and rax, rdx
  let rax := rax &&& rdx
  -- mov edx, 1 ; shl rdx, cl
  let rdx2 := (1 <<< (cl % 64)) % 18446744073709551616
  -- address operand of movzx eax, WORD [rax + rdx]
  (rax + rdx2) % 18446744073709551616

/-- Success of the x86-64 check blob (`generate_shadow_check_blob`, x86-64)
for `bit` (the blob parameter) on user address `u` with shadow memory
`shadow` (a byte map): `true` iff the `je >done` branch is taken, i.e. the
check falls through to `done` without branching to the report blob. -/
def x86ShadowCheckPasses (shadowBit bit u : Nat) (shadow : Nat → Nat) : Bool :=
  let addr := x86ShadowCheckAddr shadowBit u
  -- movzx eax, WORD [rax + rdx]: little-endian 16-bit load of two shadow bytes
  let eax := shadow addr % 256 + 256 * (shadow (addr + 1) % 256)
  let edx := x86BitRearrange eax
  -- and dil, 7 ; mov ecx, edi  (cl becomes u &&& 7)
  let cl := ((256 * (u / 256) + ((u % 256) &&& 7)) % 4294967296) % 256
  -- shr edx, cl  (32-bit shift uses the low 5 bits of cl)
  let edx := edx >>> (cl % 32)
  -- mov cl, BYTE bit as i8 ; mov eax, -1 ; shl eax, cl ; not eax
  let eaxm := 4294967295 - ((4294967295 <<< (bit % 256 % 32)) % 4294967296)
  -- movzx ecx, al
  let ecx := eaxm % 256
  -- and edx, ecx ; xor eax, eax ; cmp edx, ecx ; je >done
  (edx &&& ecx) == ecx

/-- Model of AArch64 `rev16 w1, w1`: swap the two bytes inside each 16-bit
halfword of the 32-bit register (byte 0 ↔ byte 1, byte 2 ↔ byte 3). -/
def rev16_32 (v : Nat) : Nat :=
  v / 256 % 256 + 256 * (v % 256) + 65536 * (v / 16777216 % 256) +
    16777216 * (v / 65536 % 256)

/-- Model of AArch64 `rbit w1, w1`: full 32-bit bit reversal; bit `i` of the
result is bit `31 - i` of the input (bit `i` of the input is `v / 2^i % 2`). -/
def rbit32 (v : Nat) : Nat :=
  2147483648 * (v % 2) + 1073741824 * (v / 2 % 2) + 536870912 * (v / 4 % 2) +
    268435456 * (v / 8 % 2) + 134217728 * (v / 16 % 2) + 67108864 * (v / 32 % 2) +
    33554432 * (v / 64 % 2) + 16777216 * (v / 128 % 2) + 8388608 * (v / 256 % 2) +
    4194304 * (v / 512 % 2) + 2097152 * (v / 1024 % 2) + 1048576 * (v / 2048 % 2) +
    524288 * (v / 4096 % 2) + 262144 * (v / 8192 % 2) + 131072 * (v / 16384 % 2) +
    65536 * (v / 32768 % 2) + 32768 * (v / 65536 % 2) + 16384 * (v / 131072 % 2) +
    8192 * (v / 262144 % 2) + 4096 * (v / 524288 % 2) + 2048 * (v / 1048576 % 2) +
    1024 * (v / 2097152 % 2) + 512 * (v / 4194304 % 2) + 256 * (v / 8388608 % 2) +
    128 * (v / 16777216 % 2) + 64 * (v / 33554432 % 2) + 32 * (v / 67108864 % 2) +
    16 * (v / 134217728 % 2) + 8 * (v / 268435456 % 2) + 4 * (v / 536870912 % 2) +
    2 * (v / 1073741824 % 2) + v / 2147483648 % 2

/-- The bit rearrangement performed on the loaded 16-bit shadow window by the
AArch64 check blobs: `rev16 w1, w1 ; rbit w1, w1 ; lsr x1, x1, #16`
(`generate_shadow_check_blob` / `generate_shadow_check_exact_blob`,
AArch64). -/
def armBitRearrange (w1 : Nat) : Nat :=
  rbit32 (rev16_32 w1) >>> 16

/-- The shadow byte address computed by the AArch64 check blobs: the value of
`x1` before the `ldrh w1, [x1, #0]` load, built from `shadow_bit` and the
user address `u` held in `x0`. -/
def armShadowCheckAddr (shadowBit u : Nat) : Nat :=
  -- mov x1, #0 ; add x1, x1, x0, lsr #3
  let x1 := u >>> 3
  -- ubfx x1, x1, #0, #(shadow_bit + 1): extract bits 0 .. shadow_bit
  let x1 := x1 % 2 ^ (shadowBit + 1)
  -- mov x2, #1 ; add x1, x1, x2, lsl #shadow_bit
  (x1 + ((1 <<< shadowBit) % 18446744073709551616)) % 18446744073709551616

/-- Success of the AArch64 power-of-two check blob
(`generate_shadow_check_blob`, AArch64) for blob parameter `bit`: `true` iff
the `tbnz x1, #bit, >done` branch is taken. -/
def armShadowCheckPasses (shadowBit bit u : Nat) (shadow : Nat → Nat) : Bool :=
  let x1 := armShadowCheckAddr shadowBit u
  -- ldrh w1, [x1, #0]: little-endian 16-bit load of two shadow bytes
  let w1 := shadow x1 % 256 + 256 * (shadow (x1 + 1) % 256)
  -- and x0, x0, #7
  let x0 := u &&& 7
  -- rev16 w1, w1 ; rbit w1, w1 ; lsr x1, x1, #16
  let x1v := armBitRearrange w1
  -- lsr x1, x1, x0  (64-bit shift uses the low 6 bits of x0)
  let x1v := x1v >>> (x0 % 64)
  -- tbnz x1, #bit, >done
  x1v.testBit bit

/-- Success of the AArch64 exact-mask check blob
(`generate_shadow_check_exact_blob`, AArch64) for embedded mask value `val`:
`true` iff the `b.ne >done` branch is taken after `ands x1, x1, x2`. -/
def armShadowCheckExactPasses (shadowBit val u : Nat) (shadow : Nat → Nat) : Bool :=
  let x1 := armShadowCheckAddr shadowBit u
  -- ldrh w1, [x1, #0]
  let w1 := shadow x1 % 256 + 256 * (shadow (x1 + 1) % 256)
  -- and x0, x0, #7
  let x0 := u &&& 7
  -- rev16 w1, w1 ; rbit w1, w1 ; lsr x1, x1, #16
  let x1v := armBitRearrange w1
  -- lsr x1, x1, x0
  let x1v := x1v >>> (x0 % 64)
  -- mrs x0, NZCV ; mov x2, #val ; ands x1, x1, x2 ; b.ne >done
  (x1v &&& val) != 0

/-! ## Reference bit-reversal functions and byte-stage decomposition -/

/-- Reverse the eight bits of a byte: bit `i` of the result is bit `7 - i`
of `b` (bit `i` of `b` is `b / 2^i % 2`). -/
def revByte (b : Nat) : Nat :=
  128 * (b % 2) + 64 * (b / 2 % 2) + 32 * (b / 4 % 2) + 16 * (b / 8 % 2) +
    8 * (b / 16 % 2) + 4 * (b / 32 % 2) + 2 * (b / 64 % 2) + b / 128 % 2

/-- Reverse the bits of each byte of a 16-bit word, keeping byte order. -/
def revInBytes (v : Nat) : Nat :=
  revByte (v % 256) + 256 * revByte (v / 256 % 256)

/-- Swap the two nibbles of a byte. -/
def nibSwapByte (b : Nat) : Nat := 16 * (b % 16) + b / 16

/-- Swap adjacent 2-bit groups inside each nibble of a byte. -/
def pairSwapByte (b : Nat) : Nat :=
  64 * (b / 16 % 4) + 16 * (b / 64 % 4) + 4 * (b % 4) + b / 4 % 4

/-- Swap adjacent bits inside each 2-bit group of a byte. -/
def bitSwapByte (b : Nat) : Nat :=
  128 * (b / 64 % 2) + 64 * (b / 128 % 2) + 32 * (b / 16 % 2) + 16 * (b / 32 % 2) +
    8 * (b / 4 % 2) + 4 * (b / 8 % 2) + 2 * (b % 2) + b / 2 % 2

theorem nibSwapByte_lt (b : Nat) (h : b < 256) : nibSwapByte b < 256 := by
  unfold nibSwapByte; omega

theorem pairSwapByte_lt (b : Nat) : pairSwapByte b < 256 := by
  unfold pairSwapByte; omega

theorem bitSwapByte_lt (b : Nat) : bitSwapByte b < 256 := by
  unfold bitSwapByte; omega

theorem revByte_lt (b : Nat) : revByte b < 256 := by
  unfold revByte; omega

set_option maxRecDepth 2000 in
theorem swap_comp_eq_revByte :
    ∀ b, b < 256 → bitSwapByte (pairSwapByte (nibSwapByte b)) = revByte b := by
  decide

theorem rolAx8_eq (x : Nat) :
    rolAx8 x = x / 65536 * 65536 + (256 * (x % 256) + x / 256 % 256) := by
  unfold rolAx8
  have e1 : ((x % 65536) <<< 8) % 65536 = 2 ^ 8 * (x % 256) := by
    rw [Nat.shiftLeft_eq]; omega
  have e2 : (x % 65536) >>> 8 = x / 256 % 256 := by
    rw [Nat.shiftRight_eq_div_pow]; omega
  rw [e1, e2, ← Nat.mul_add_lt_is_or (show x / 256 % 256 < 2 ^ 8 by omega) (x % 256)]
  try norm_num
  try omega

/-! ## Bridge: the x86-64 rearrangement reverses the bits of each byte -/

theorem nibStage_eq (X B1 B0 : Nat) (hX : X % 65536 = 256 * B1 + B0) (hXb : X < 65536)
    (h1 : B1 < 256) (h0 : B0 < 256) :
    ((((X <<< 4) % 4294967296) &&& 4294963440) ||| ((X >>> 4) &&& 3855)) % 65536
        = 256 * nibSwapByte B1 + nibSwapByte B0
      ∧ (((X <<< 4) % 4294967296) &&& 4294963440) ||| ((X >>> 4) &&& 3855) < 2097152 := by
  obtain rfl : X = 256 * B1 + B0 := by omega
  rw [or_eq_add_of_and_eq_zero _ _ (and_and_of_mask_disjoint _ _ _ _ (by decide))]
  have hsl : ((256 * B1 + B0) <<< 4) % 4294967296 = (256 * B1 + B0) * 16 := by
    rw [Nat.shiftLeft_eq]; omega
  rw [hsl, Nat.shiftRight_eq_div_pow, and_4294963440, and_3855]
  have d1 : (256 * B1 + B0) * 16 / 65536 % 65536 = B1 / 16 := by omega
  have d2 : (256 * B1 + B0) * 16 / 4096 % 16 = B1 % 16 := by omega
  have d3 : (256 * B1 + B0) * 16 / 16 % 16 = B0 % 16 := by omega
  have d4 : (256 * B1 + B0) / 2 ^ 4 / 256 % 16 = B1 / 16 := by omega
  have d5 : (256 * B1 + B0) / 2 ^ 4 % 16 = B0 / 16 := by omega
  rw [d1, d2, d3, d4, d5]
  clear d1 d2 d3 d4 d5 hsl hX
  unfold nibSwapByte
  refine ⟨?_, ?_⟩ <;> omega

theorem pairStage_eq (X B1 B0 : Nat) (hX : X % 65536 = 256 * B1 + B0) (hXb : X < 2097152)
    (h1 : B1 < 256) (h0 : B0 < 256) :
    ((((X >>> 2) &&& 13107) + 4 * (X &&& 4294964019)) % 4294967296) % 65536
        = 256 * pairSwapByte B1 + pairSwapByte B0
      ∧ (((X >>> 2) &&& 13107) + 4 * (X &&& 4294964019)) % 4294967296 < 16777216 := by
  obtain ⟨q, hq, rfl⟩ : ∃ q, q < 32 ∧ X = 65536 * q + 256 * B1 + B0 :=
    ⟨X / 65536, by omega, by omega⟩
  rw [Nat.shiftRight_eq_div_pow, and_13107, and_4294964019]
  have d1 : (65536 * q + 256 * B1 + B0) / 2 ^ 2 / 4096 % 4 = B1 / 64 := by omega
  have d2 : (65536 * q + 256 * B1 + B0) / 2 ^ 2 / 256 % 4 = B1 / 4 % 4 := by omega
  have d3 : (65536 * q + 256 * B1 + B0) / 2 ^ 2 / 16 % 4 = B0 / 64 := by omega
  have d4 : (65536 * q + 256 * B1 + B0) / 2 ^ 2 % 4 = B0 / 4 % 4 := by omega
  have d5 : (65536 * q + 256 * B1 + B0) / 65536 % 65536 = q := by omega
  have d6 : (65536 * q + 256 * B1 + B0) / 4096 % 16 = B1 / 16 := by omega
  have d7 : (65536 * q + 256 * B1 + B0) / 256 % 4 = B1 % 4 := by omega
  have d8 : (65536 * q + 256 * B1 + B0) / 16 % 4 = B0 / 16 % 4 := by omega
  have d9 : (65536 * q + 256 * B1 + B0) % 4 = B0 % 4 := by omega
  rw [d1, d2, d3, d4, d5, d6, d7, d8, d9]
  clear d1 d2 d3 d4 d5 d6 d7 d8 d9 hX
  have hS : 4096 * (B1 / 64) + 256 * (B1 / 4 % 4) + 16 * (B0 / 64) + B0 / 4 % 4 +
      4 * (65536 * q + 4096 * (B1 / 16) + 256 * (B1 % 4) + 16 * (B0 / 16 % 4) + B0 % 4)
      < 4294967296 := by omega
  rw [Nat.mod_eq_of_lt hS]
  clear hS
  unfold pairSwapByte
  obtain ⟨a3, a2, a1, a0, ha3, ha2, ha1, ha0, rfl⟩ :
      ∃ a3 a2 a1 a0, a3 < 4 ∧ a2 < 4 ∧ a1 < 4 ∧ a0 < 4 ∧
        B1 = 64 * a3 + 16 * a2 + 4 * a1 + a0 :=
    ⟨B1 / 64, B1 / 16 % 4, B1 / 4 % 4, B1 % 4, by omega, by omega, by omega, by omega, by omega⟩
  obtain ⟨b3, b2, b1, b0, hb3, hb2, hb1, hb0, rfl⟩ :
      ∃ b3 b2 b1 b0, b3 < 4 ∧ b2 < 4 ∧ b1 < 4 ∧ b0 < 4 ∧
        B0 = 64 * b3 + 16 * b2 + 4 * b1 + b0 :=
    ⟨B0 / 64, B0 / 16 % 4, B0 / 4 % 4, B0 % 4, by omega, by omega, by omega, by omega, by omega⟩
  have e3 : (64 * a3 + 16 * a2 + 4 * a1 + a0) / 4 % 4 = a1 := by omega
  have e5 : (64 * a3 + 16 * a2 + 4 * a1 + a0) / 16 % 4 = a2 := by omega
  have e6 : (64 * a3 + 16 * a2 + 4 * a1 + a0) / 64 % 4 = a3 := by omega
  have e2 : (64 * a3 + 16 * a2 + 4 * a1 + a0) / 16 = 4 * a3 + a2 := by omega
  have e1 : (64 * a3 + 16 * a2 + 4 * a1 + a0) / 64 = a3 := by omega
  have e4 : (64 * a3 + 16 * a2 + 4 * a1 + a0) % 4 = a0 := by omega
  have f3 : (64 * b3 + 16 * b2 + 4 * b1 + b0) / 4 % 4 = b1 := by omega
  have f2 : (64 * b3 + 16 * b2 + 4 * b1 + b0) / 16 % 4 = b2 := by omega
  have f6 : (64 * b3 + 16 * b2 + 4 * b1 + b0) / 64 % 4 = b3 := by omega
  have f1 : (64 * b3 + 16 * b2 + 4 * b1 + b0) / 64 = b3 := by omega
  have f4 : (64 * b3 + 16 * b2 + 4 * b1 + b0) % 4 = b0 := by omega
  rw [e3, e5, e6, e2, e1, e4, f3, f2, f6, f1, f4]
  clear e1 e2 e3 e4 e5 e6 f1 f2 f3 f4 f6
  refine ⟨?_, ?_⟩ <;> omega

set_option maxHeartbeats 4000000 in
theorem bitStage_eq (X B1 B0 : Nat) (hX : X % 65536 = 256 * B1 + B0) (hXb : X < 16777216)
    (h1 : B1 < 256) (h0 : B0 < 256) :
    ((((X >>> 1) &&& 21845) + 2 * (X &&& 4294956373)) % 4294967296) % 65536
        = 256 * bitSwapByte B1 + bitSwapByte B0
      ∧ (((X >>> 1) &&& 21845) + 2 * (X &&& 4294956373)) % 4294967296 < 67108864 := by
  obtain ⟨q, hq, rfl⟩ : ∃ q, q < 256 ∧ X = 65536 * q + 256 * B1 + B0 :=
    ⟨X / 65536, by omega, by omega⟩
  rw [Nat.shiftRight_eq_div_pow, and_21845, and_4294956373_structured q B1 B0 h1 h0]
  have d1 : (65536 * q + 256 * B1 + B0) / 2 ^ 1 / 16384 % 2 = B1 / 128 := by omega
  have d2 : (65536 * q + 256 * B1 + B0) / 2 ^ 1 / 4096 % 2 = B1 / 32 % 2 := by omega
  have d3 : (65536 * q + 256 * B1 + B0) / 2 ^ 1 / 1024 % 2 = B1 / 8 % 2 := by omega
  have d4 : (65536 * q + 256 * B1 + B0) / 2 ^ 1 / 256 % 2 = B1 / 2 % 2 := by omega
  have d5 : (65536 * q + 256 * B1 + B0) / 2 ^ 1 / 64 % 2 = B0 / 128 := by omega
  have d6 : (65536 * q + 256 * B1 + B0) / 2 ^ 1 / 16 % 2 = B0 / 32 % 2 := by omega
  have d7 : (65536 * q + 256 * B1 + B0) / 2 ^ 1 / 4 % 2 = B0 / 8 % 2 := by omega
  have d8 : (65536 * q + 256 * B1 + B0) / 2 ^ 1 % 2 = B0 / 2 % 2 := by omega
  rw [d1, d2, d3, d4, d5, d6, d7, d8]
  clear d1 d2 d3 d4 d5 d6 d7 d8 hX
  have dq : q % 65536 = q := by omega
  rw [dq]
  have hS : 16384 * (B1 / 128) + 4096 * (B1 / 32 % 2) + 1024 * (B1 / 8 % 2) +
      256 * (B1 / 2 % 2) + 64 * (B0 / 128) + 16 * (B0 / 32 % 2) + 4 * (B0 / 8 % 2) +
      B0 / 2 % 2 +
      2 * (65536 * q +
        256 * (128 * (B1 / 128 % 2) + 64 * (B1 / 64 % 2) + 16 * (B1 / 16 % 2) +
          4 * (B1 / 4 % 2) + B1 % 2) +
        (64 * (B0 / 64 % 2) + 16 * (B0 / 16 % 2) + 4 * (B0 / 4 % 2) + B0 % 2))
      < 4294967296 := by omega
  rw [Nat.mod_eq_of_lt hS]
  clear hS
  unfold bitSwapByte
  obtain ⟨c7, c6, c5, c4, c3, c2, c1, c0, hc, rfl⟩ :
      ∃ c7 c6 c5 c4 c3 c2 c1 c0,
        (c7 < 2 ∧ c6 < 2 ∧ c5 < 2 ∧ c4 < 2 ∧ c3 < 2 ∧ c2 < 2 ∧ c1 < 2 ∧ c0 < 2) ∧
        B1 = 128 * c7 + 64 * c6 + 32 * c5 + 16 * c4 + 8 * c3 + 4 * c2 + 2 * c1 + c0 :=
    ⟨B1 / 128, B1 / 64 % 2, B1 / 32 % 2, B1 / 16 % 2, B1 / 8 % 2, B1 / 4 % 2, B1 / 2 % 2,
      B1 % 2, by omega, by omega⟩
  obtain ⟨d7, d6, d5, d4, d3, d2, d1, d0, hd, rfl⟩ :
      ∃ d7 d6 d5 d4 d3 d2 d1 d0,
        (d7 < 2 ∧ d6 < 2 ∧ d5 < 2 ∧ d4 < 2 ∧ d3 < 2 ∧ d2 < 2 ∧ d1 < 2 ∧ d0 < 2) ∧
        B0 = 128 * d7 + 64 * d6 + 32 * d5 + 16 * d4 + 8 * d3 + 4 * d2 + 2 * d1 + d0 :=
    ⟨B0 / 128, B0 / 64 % 2, B0 / 32 % 2, B0 / 16 % 2, B0 / 8 % 2, B0 / 4 % 2, B0 / 2 % 2,
      B0 % 2, by omega, by omega⟩
  obtain ⟨hc7, hc6, hc5, hc4, hc3, hc2, hc1, hc0⟩ := hc
  obtain ⟨hd7, hd6, hd5, hd4, hd3, hd2, hd1, hd0⟩ := hd
  have r : (128 * c7 + 64 * c6 + 32 * c5 + 16 * c4 + 8 * c3 + 4 * c2 + 2 * c1 + c0) / 128 % 2 = c7 := by omega
  rw [r]
  clear r
  have r : (128 * c7 + 64 * c6 + 32 * c5 + 16 * c4 + 8 * c3 + 4 * c2 + 2 * c1 + c0) / 64 % 2 = c6 := by omega
  rw [r]
  clear r
  have r : (128 * c7 + 64 * c6 + 32 * c5 + 16 * c4 + 8 * c3 + 4 * c2 + 2 * c1 + c0) / 32 % 2 = c5 := by omega
  rw [r]
  clear r
  have r : (128 * c7 + 64 * c6 + 32 * c5 + 16 * c4 + 8 * c3 + 4 * c2 + 2 * c1 + c0) / 16 % 2 = c4 := by omega
  rw [r]
  clear r
  have r : (128 * c7 + 64 * c6 + 32 * c5 + 16 * c4 + 8 * c3 + 4 * c2 + 2 * c1 + c0) / 8 % 2 = c3 := by omega
  rw [r]
  clear r
  have r : (128 * c7 + 64 * c6 + 32 * c5 + 16 * c4 + 8 * c3 + 4 * c2 + 2 * c1 + c0) / 4 % 2 = c2 := by omega
  rw [r]
  clear r
  have r : (128 * c7 + 64 * c6 + 32 * c5 + 16 * c4 + 8 * c3 + 4 * c2 + 2 * c1 + c0) / 2 % 2 = c1 := by omega
  rw [r]
  clear r
  have r : (128 * c7 + 64 * c6 + 32 * c5 + 16 * c4 + 8 * c3 + 4 * c2 + 2 * c1 + c0) % 2 = c0 := by omega
  rw [r]
  clear r
  have r : (128 * c7 + 64 * c6 + 32 * c5 + 16 * c4 + 8 * c3 + 4 * c2 + 2 * c1 + c0) / 128 = c7 := by omega
  rw [r]
  clear r
  have r : (128 * d7 + 64 * d6 + 32 * d5 + 16 * d4 + 8 * d3 + 4 * d2 + 2 * d1 + d0) / 128 % 2 = d7 := by omega
  rw [r]
  clear r
  have r : (128 * d7 + 64 * d6 + 32 * d5 + 16 * d4 + 8 * d3 + 4 * d2 + 2 * d1 + d0) / 64 % 2 = d6 := by omega
  rw [r]
  clear r
  have r : (128 * d7 + 64 * d6 + 32 * d5 + 16 * d4 + 8 * d3 + 4 * d2 + 2 * d1 + d0) / 32 % 2 = d5 := by omega
  rw [r]
  clear r
  have r : (128 * d7 + 64 * d6 + 32 * d5 + 16 * d4 + 8 * d3 + 4 * d2 + 2 * d1 + d0) / 16 % 2 = d4 := by omega
  rw [r]
  clear r
  have r : (128 * d7 + 64 * d6 + 32 * d5 + 16 * d4 + 8 * d3 + 4 * d2 + 2 * d1 + d0) / 8 % 2 = d3 := by omega
  rw [r]
  clear r
  have r : (128 * d7 + 64 * d6 + 32 * d5 + 16 * d4 + 8 * d3 + 4 * d2 + 2 * d1 + d0) / 4 % 2 = d2 := by omega
  rw [r]
  clear r
  have r : (128 * d7 + 64 * d6 + 32 * d5 + 16 * d4 + 8 * d3 + 4 * d2 + 2 * d1 + d0) / 2 % 2 = d1 := by omega
  rw [r]
  clear r
  have r : (128 * d7 + 64 * d6 + 32 * d5 + 16 * d4 + 8 * d3 + 4 * d2 + 2 * d1 + d0) % 2 = d0 := by omega
  rw [r]
  clear r
  have r : (128 * d7 + 64 * d6 + 32 * d5 + 16 * d4 + 8 * d3 + 4 * d2 + 2 * d1 + d0) / 128 = d7 := by omega
  rw [r]
  clear r
  refine ⟨?_, ?_⟩ <;> omega

theorem x86BitRearrange_eq_revInBytes (v : Nat) (hv : v < 65536) :
    x86BitRearrange v = revInBytes v := by
  obtain ⟨b1, b0, h1, h0, rfl⟩ :
      ∃ b1 b0, b1 < 256 ∧ b0 < 256 ∧ v = 256 * b1 + b0 :=
    ⟨v / 256, v % 256, by omega, by omega, by omega⟩
  simp only [x86BitRearrange]
  set e1 := rolAx8 (256 * b1 + b0) with he1
  have hq3 : (256 * b1 + b0) / 65536 = 0 := by omega
  have hq1 : (256 * b1 + b0) % 256 = b0 := by omega
  have hq2 : (256 * b1 + b0) / 256 % 256 = b1 := by omega
  have he1m : e1 % 65536 = 256 * b0 + b1 := by
    rw [he1, rolAx8_eq, hq3, hq1, hq2]; omega
  have he1b : e1 < 65536 := by
    rw [he1, rolAx8_eq, hq3, hq1, hq2]; omega
  clear hq1 hq2 hq3
  set e2 := (((e1 <<< 4) % 4294967296) &&& 4294963440) ||| ((e1 >>> 4) &&& 3855) with he2
  have h2 := nibStage_eq e1 b0 b1 he1m he1b h0 h1
  rw [← he2] at h2
  obtain ⟨h2m, h2b⟩ := h2
  set e3 := (((e2 >>> 2) &&& 13107) + 4 * (e2 &&& 4294964019)) % 4294967296 with he3
  have h3 := pairStage_eq e2 (nibSwapByte b0) (nibSwapByte b1) h2m (by omega)
    (nibSwapByte_lt b0 h0) (nibSwapByte_lt b1 h1)
  rw [← he3] at h3
  obtain ⟨h3m, h3b⟩ := h3
  set e4 := (((e3 >>> 1) &&& 21845) + 2 * (e3 &&& 4294956373)) % 4294967296 with he4
  have h4 := bitStage_eq e3 (pairSwapByte (nibSwapByte b0)) (pairSwapByte (nibSwapByte b1))
    h3m (by omega) (pairSwapByte_lt _) (pairSwapByte_lt _)
  rw [← he4] at h4
  obtain ⟨h4m, h4b⟩ := h4
  rw [swap_comp_eq_revByte b0 h0, swap_comp_eq_revByte b1 h1] at h4m
  rw [rolAx8_eq, and_65535]
  unfold revInBytes
  have ha : (256 * b1 + b0) % 256 = b0 := by omega
  have hb : (256 * b1 + b0) / 256 % 256 = b1 := by omega
  rw [ha, hb]
  have hr0 := revByte_lt b0
  have hr1 := revByte_lt b1
  clear he1 he2 he3 he4
  clear_value e1 e2 e3 e4
  clear he1m he1b h2m h2b h3m h3b e1 e2 e3
  obtain ⟨q, hq, rfl⟩ :
      ∃ q, q < 1024 ∧ e4 = 65536 * q + (256 * revByte b0 + revByte b1) :=
    ⟨e4 / 65536, by omega, by omega⟩
  have u1 : (65536 * q + (256 * revByte b0 + revByte b1)) % 256 = revByte b1 := by omega
  rw [u1]
  clear u1
  have u2 : (65536 * q + (256 * revByte b0 + revByte b1)) / 256 % 256 = revByte b0 := by
    omega
  rw [u2]
  clear u2
  have u3 : (65536 * q + (256 * revByte b0 + revByte b1)) / 65536 = q := by omega
  rw [u3]
  clear u3
  omega

/-! ## Bridge: the AArch64 rearrangement reverses the bits of each byte -/

set_option maxHeartbeats 4000000 in
theorem armBitRearrange_eq_revInBytes (w : Nat) (hw : w < 65536) :
    armBitRearrange w = revInBytes w := by
  obtain ⟨B1, B0, h1, h0, rfl⟩ :
      ∃ B1 B0, B1 < 256 ∧ B0 < 256 ∧ w = 256 * B1 + B0 :=
    ⟨w / 256, w % 256, by omega, by omega, by omega⟩
  unfold armBitRearrange
  have hrev : rev16_32 (256 * B1 + B0) = B1 + 256 * B0 := by
    unfold rev16_32
    have hA1 : (256 * B1 + B0) / 256 % 256 = B1 := by omega
    have hA0 : (256 * B1 + B0) % 256 = B0 := by omega
    have hA2 : (256 * B1 + B0) / 16777216 % 256 = 0 := by omega
    have hA3 : (256 * B1 + B0) / 65536 % 256 = 0 := by omega
    rw [hA1, hA0, hA2, hA3]
    omega
  rw [hrev]
  clear hw hrev
  obtain ⟨c7, c6, c5, c4, c3, c2, c1, c0, hc, rfl⟩ :
      ∃ c7 c6 c5 c4 c3 c2 c1 c0,
        (c7 < 2 ∧ c6 < 2 ∧ c5 < 2 ∧ c4 < 2 ∧ c3 < 2 ∧ c2 < 2 ∧ c1 < 2 ∧ c0 < 2) ∧
        B1 = 128 * c7 + 64 * c6 + 32 * c5 + 16 * c4 + 8 * c3 + 4 * c2 + 2 * c1 + c0 :=
    ⟨B1 / 128, B1 / 64 % 2, B1 / 32 % 2, B1 / 16 % 2, B1 / 8 % 2, B1 / 4 % 2, B1 / 2 % 2,
      B1 % 2, by omega, by omega⟩
  obtain ⟨d7, d6, d5, d4, d3, d2, d1, d0, hd, rfl⟩ :
      ∃ d7 d6 d5 d4 d3 d2 d1 d0,
        (d7 < 2 ∧ d6 < 2 ∧ d5 < 2 ∧ d4 < 2 ∧ d3 < 2 ∧ d2 < 2 ∧ d1 < 2 ∧ d0 < 2) ∧
        B0 = 128 * d7 + 64 * d6 + 32 * d5 + 16 * d4 + 8 * d3 + 4 * d2 + 2 * d1 + d0 :=
    ⟨B0 / 128, B0 / 64 % 2, B0 / 32 % 2, B0 / 16 % 2, B0 / 8 % 2, B0 / 4 % 2, B0 / 2 % 2,
      B0 % 2, by omega, by omega⟩
  obtain ⟨hc7, hc6, hc5, hc4, hc3, hc2, hc1, hc0⟩ := hc
  obtain ⟨hd7, hd6, hd5, hd4, hd3, hd2, hd1, hd0⟩ := hd
  have hrb : rbit32 (128 * c7 + 64 * c6 + 32 * c5 + 16 * c4 + 8 * c3 + 4 * c2 + 2 * c1 + c0 + 256 * (128 * d7 + 64 * d6 + 32 * d5 + 16 * d4 + 8 * d3 + 4 * d2 + 2 * d1 + d0)) = 2147483648 * c0 + 1073741824 * c1 + 536870912 * c2 + 268435456 * c3 + 134217728 * c4 + 67108864 * c5 + 33554432 * c6 + 16777216 * c7 + 8388608 * d0 + 4194304 * d1 + 2097152 * d2 + 1048576 * d3 + 524288 * d4 + 262144 * d5 + 131072 * d6 + 65536 * d7 := by
    unfold rbit32
    have r : (128 * c7 + 64 * c6 + 32 * c5 + 16 * c4 + 8 * c3 + 4 * c2 + 2 * c1 + c0 + 256 * (128 * d7 + 64 * d6 + 32 * d5 + 16 * d4 + 8 * d3 + 4 * d2 + 2 * d1 + d0)) % 2 = c0 := by omega
    rw [r]
    clear r
    have r : (128 * c7 + 64 * c6 + 32 * c5 + 16 * c4 + 8 * c3 + 4 * c2 + 2 * c1 + c0 + 256 * (128 * d7 + 64 * d6 + 32 * d5 + 16 * d4 + 8 * d3 + 4 * d2 + 2 * d1 + d0)) / 2 % 2 = c1 := by omega
    rw [r]
    clear r
    have r : (128 * c7 + 64 * c6 + 32 * c5 + 16 * c4 + 8 * c3 + 4 * c2 + 2 * c1 + c0 + 256 * (128 * d7 + 64 * d6 + 32 * d5 + 16 * d4 + 8 * d3 + 4 * d2 + 2 * d1 + d0)) / 4 % 2 = c2 := by omega
    rw [r]
    clear r
    have r : (128 * c7 + 64 * c6 + 32 * c5 + 16 * c4 + 8 * c3 + 4 * c2 + 2 * c1 + c0 + 256 * (128 * d7 + 64 * d6 + 32 * d5 + 16 * d4 + 8 * d3 + 4 * d2 + 2 * d1 + d0)) / 8 % 2 = c3 := by omega
    rw [r]
    clear r
    have r : (128 * c7 + 64 * c6 + 32 * c5 + 16 * c4 + 8 * c3 + 4 * c2 + 2 * c1 + c0 + 256 * (128 * d7 + 64 * d6 + 32 * d5 + 16 * d4 + 8 * d3 + 4 * d2 + 2 * d1 + d0)) / 16 % 2 = c4 := by omega
    rw [r]
    clear r
    have r : (128 * c7 + 64 * c6 + 32 * c5 + 16 * c4 + 8 * c3 + 4 * c2 + 2 * c1 + c0 + 256 * (128 * d7 + 64 * d6 + 32 * d5 + 16 * d4 + 8 * d3 + 4 * d2 + 2 * d1 + d0)) / 32 % 2 = c5 := by omega
    rw [r]
    clear r
    have r : (128 * c7 + 64 * c6 + 32 * c5 + 16 * c4 + 8 * c3 + 4 * c2 + 2 * c1 + c0 + 256 * (128 * d7 + 64 * d6 + 32 * d5 + 16 * d4 + 8 * d3 + 4 * d2 + 2 * d1 + d0)) / 64 % 2 = c6 := by omega
    rw [r]
    clear r
    have r : (128 * c7 + 64 * c6 + 32 * c5 + 16 * c4 + 8 * c3 + 4 * c2 + 2 * c1 + c0 + 256 * (128 * d7 + 64 * d6 + 32 * d5 + 16 * d4 + 8 * d3 + 4 * d2 + 2 * d1 + d0)) / 128 % 2 = c7 := by omega
    rw [r]
    clear r
    have r : (128 * c7 + 64 * c6 + 32 * c5 + 16 * c4 + 8 * c3 + 4 * c2 + 2 * c1 + c0 + 256 * (128 * d7 + 64 * d6 + 32 * d5 + 16 * d4 + 8 * d3 + 4 * d2 + 2 * d1 + d0)) / 256 % 2 = d0 := by omega
    rw [r]
    clear r
    have r : (128 * c7 + 64 * c6 + 32 * c5 + 16 * c4 + 8 * c3 + 4 * c2 + 2 * c1 + c0 + 256 * (128 * d7 + 64 * d6 + 32 * d5 + 16 * d4 + 8 * d3 + 4 * d2 + 2 * d1 + d0)) / 512 % 2 = d1 := by omega
    rw [r]
    clear r
    have r : (128 * c7 + 64 * c6 + 32 * c5 + 16 * c4 + 8 * c3 + 4 * c2 + 2 * c1 + c0 + 256 * (128 * d7 + 64 * d6 + 32 * d5 + 16 * d4 + 8 * d3 + 4 * d2 + 2 * d1 + d0)) / 1024 % 2 = d2 := by omega
    rw [r]
    clear r
    have r : (128 * c7 + 64 * c6 + 32 * c5 + 16 * c4 + 8 * c3 + 4 * c2 + 2 * c1 + c0 + 256 * (128 * d7 + 64 * d6 + 32 * d5 + 16 * d4 + 8 * d3 + 4 * d2 + 2 * d1 + d0)) / 2048 % 2 = d3 := by omega
    rw [r]
    clear r
    have r : (128 * c7 + 64 * c6 + 32 * c5 + 16 * c4 + 8 * c3 + 4 * c2 + 2 * c1 + c0 + 256 * (128 * d7 + 64 * d6 + 32 * d5 + 16 * d4 + 8 * d3 + 4 * d2 + 2 * d1 + d0)) / 4096 % 2 = d4 := by omega
    rw [r]
    clear r
    have r : (128 * c7 + 64 * c6 + 32 * c5 + 16 * c4 + 8 * c3 + 4 * c2 + 2 * c1 + c0 + 256 * (128 * d7 + 64 * d6 + 32 * d5 + 16 * d4 + 8 * d3 + 4 * d2 + 2 * d1 + d0)) / 8192 % 2 = d5 := by omega
    rw [r]
    clear r
    have r : (128 * c7 + 64 * c6 + 32 * c5 + 16 * c4 + 8 * c3 + 4 * c2 + 2 * c1 + c0 + 256 * (128 * d7 + 64 * d6 + 32 * d5 + 16 * d4 + 8 * d3 + 4 * d2 + 2 * d1 + d0)) / 16384 % 2 = d6 := by omega
    rw [r]
    clear r
    have r : (128 * c7 + 64 * c6 + 32 * c5 + 16 * c4 + 8 * c3 + 4 * c2 + 2 * c1 + c0 + 256 * (128 * d7 + 64 * d6 + 32 * d5 + 16 * d4 + 8 * d3 + 4 * d2 + 2 * d1 + d0)) / 32768 % 2 = d7 := by omega
    rw [r]
    clear r
    have r : (128 * c7 + 64 * c6 + 32 * c5 + 16 * c4 + 8 * c3 + 4 * c2 + 2 * c1 + c0 + 256 * (128 * d7 + 64 * d6 + 32 * d5 + 16 * d4 + 8 * d3 + 4 * d2 + 2 * d1 + d0)) / 65536 % 2 = 0 := by omega
    rw [r]
    clear r
    have r : (128 * c7 + 64 * c6 + 32 * c5 + 16 * c4 + 8 * c3 + 4 * c2 + 2 * c1 + c0 + 256 * (128 * d7 + 64 * d6 + 32 * d5 + 16 * d4 + 8 * d3 + 4 * d2 + 2 * d1 + d0)) / 131072 % 2 = 0 := by omega
    rw [r]
    clear r
    have r : (128 * c7 + 64 * c6 + 32 * c5 + 16 * c4 + 8 * c3 + 4 * c2 + 2 * c1 + c0 + 256 * (128 * d7 + 64 * d6 + 32 * d5 + 16 * d4 + 8 * d3 + 4 * d2 + 2 * d1 + d0)) / 262144 % 2 = 0 := by omega
    rw [r]
    clear r
    have r : (128 * c7 + 64 * c6 + 32 * c5 + 16 * c4 + 8 * c3 + 4 * c2 + 2 * c1 + c0 + 256 * (128 * d7 + 64 * d6 + 32 * d5 + 16 * d4 + 8 * d3 + 4 * d2 + 2 * d1 + d0)) / 524288 % 2 = 0 := by omega
    rw [r]
    clear r
    have r : (128 * c7 + 64 * c6 + 32 * c5 + 16 * c4 + 8 * c3 + 4 * c2 + 2 * c1 + c0 + 256 * (128 * d7 + 64 * d6 + 32 * d5 + 16 * d4 + 8 * d3 + 4 * d2 + 2 * d1 + d0)) / 1048576 % 2 = 0 := by omega
    rw [r]
    clear r
    have r : (128 * c7 + 64 * c6 + 32 * c5 + 16 * c4 + 8 * c3 + 4 * c2 + 2 * c1 + c0 + 256 * (128 * d7 + 64 * d6 + 32 * d5 + 16 * d4 + 8 * d3 + 4 * d2 + 2 * d1 + d0)) / 2097152 % 2 = 0 := by omega
    rw [r]
    clear r
    have r : (128 * c7 + 64 * c6 + 32 * c5 + 16 * c4 + 8 * c3 + 4 * c2 + 2 * c1 + c0 + 256 * (128 * d7 + 64 * d6 + 32 * d5 + 16 * d4 + 8 * d3 + 4 * d2 + 2 * d1 + d0)) / 4194304 % 2 = 0 := by omega
    rw [r]
    clear r
    have r : (128 * c7 + 64 * c6 + 32 * c5 + 16 * c4 + 8 * c3 + 4 * c2 + 2 * c1 + c0 + 256 * (128 * d7 + 64 * d6 + 32 * d5 + 16 * d4 + 8 * d3 + 4 * d2 + 2 * d1 + d0)) / 8388608 % 2 = 0 := by omega
    rw [r]
    clear r
    have r : (128 * c7 + 64 * c6 + 32 * c5 + 16 * c4 + 8 * c3 + 4 * c2 + 2 * c1 + c0 + 256 * (128 * d7 + 64 * d6 + 32 * d5 + 16 * d4 + 8 * d3 + 4 * d2 + 2 * d1 + d0)) / 16777216 % 2 = 0 := by omega
    rw [r]
    clear r
    have r : (128 * c7 + 64 * c6 + 32 * c5 + 16 * c4 + 8 * c3 + 4 * c2 + 2 * c1 + c0 + 256 * (128 * d7 + 64 * d6 + 32 * d5 + 16 * d4 + 8 * d3 + 4 * d2 + 2 * d1 + d0)) / 33554432 % 2 = 0 := by omega
    rw [r]
    clear r
    have r : (128 * c7 + 64 * c6 + 32 * c5 + 16 * c4 + 8 * c3 + 4 * c2 + 2 * c1 + c0 + 256 * (128 * d7 + 64 * d6 + 32 * d5 + 16 * d4 + 8 * d3 + 4 * d2 + 2 * d1 + d0)) / 67108864 % 2 = 0 := by omega
    rw [r]
    clear r
    have r : (128 * c7 + 64 * c6 + 32 * c5 + 16 * c4 + 8 * c3 + 4 * c2 + 2 * c1 + c0 + 256 * (128 * d7 + 64 * d6 + 32 * d5 + 16 * d4 + 8 * d3 + 4 * d2 + 2 * d1 + d0)) / 134217728 % 2 = 0 := by omega
    rw [r]
    clear r
    have r : (128 * c7 + 64 * c6 + 32 * c5 + 16 * c4 + 8 * c3 + 4 * c2 + 2 * c1 + c0 + 256 * (128 * d7 + 64 * d6 + 32 * d5 + 16 * d4 + 8 * d3 + 4 * d2 + 2 * d1 + d0)) / 268435456 % 2 = 0 := by omega
    rw [r]
    clear r
    have r : (128 * c7 + 64 * c6 + 32 * c5 + 16 * c4 + 8 * c3 + 4 * c2 + 2 * c1 + c0 + 256 * (128 * d7 + 64 * d6 + 32 * d5 + 16 * d4 + 8 * d3 + 4 * d2 + 2 * d1 + d0)) / 536870912 % 2 = 0 := by omega
    rw [r]
    clear r
    have r : (128 * c7 + 64 * c6 + 32 * c5 + 16 * c4 + 8 * c3 + 4 * c2 + 2 * c1 + c0 + 256 * (128 * d7 + 64 * d6 + 32 * d5 + 16 * d4 + 8 * d3 + 4 * d2 + 2 * d1 + d0)) / 1073741824 % 2 = 0 := by omega
    rw [r]
    clear r
    have r : (128 * c7 + 64 * c6 + 32 * c5 + 16 * c4 + 8 * c3 + 4 * c2 + 2 * c1 + c0 + 256 * (128 * d7 + 64 * d6 + 32 * d5 + 16 * d4 + 8 * d3 + 4 * d2 + 2 * d1 + d0)) / 2147483648 % 2 = 0 := by omega
    rw [r]
    clear r
    omega
  rw [hrb]
  clear hrb
  rw [Nat.shiftRight_eq_div_pow]
  unfold revInBytes revByte
  have ha0 : (256 * (128 * c7 + 64 * c6 + 32 * c5 + 16 * c4 + 8 * c3 + 4 * c2 + 2 * c1 + c0) + (128 * d7 + 64 * d6 + 32 * d5 + 16 * d4 + 8 * d3 + 4 * d2 + 2 * d1 + d0)) % 256 = 128 * d7 + 64 * d6 + 32 * d5 + 16 * d4 + 8 * d3 + 4 * d2 + 2 * d1 + d0 := by omega
  rw [ha0]
  clear ha0
  have ha1 : (256 * (128 * c7 + 64 * c6 + 32 * c5 + 16 * c4 + 8 * c3 + 4 * c2 + 2 * c1 + c0) + (128 * d7 + 64 * d6 + 32 * d5 + 16 * d4 + 8 * d3 + 4 * d2 + 2 * d1 + d0)) / 256 % 256 = 128 * c7 + 64 * c6 + 32 * c5 + 16 * c4 + 8 * c3 + 4 * c2 + 2 * c1 + c0 := by omega
  rw [ha1]
  clear ha1
  have r : (128 * c7 + 64 * c6 + 32 * c5 + 16 * c4 + 8 * c3 + 4 * c2 + 2 * c1 + c0) % 2 = c0 := by omega
  rw [r]
  clear r
  have r : (128 * c7 + 64 * c6 + 32 * c5 + 16 * c4 + 8 * c3 + 4 * c2 + 2 * c1 + c0) / 2 % 2 = c1 := by omega
  rw [r]
  clear r
  have r : (128 * c7 + 64 * c6 + 32 * c5 + 16 * c4 + 8 * c3 + 4 * c2 + 2 * c1 + c0) / 4 % 2 = c2 := by omega
  rw [r]
  clear r
  have r : (128 * c7 + 64 * c6 + 32 * c5 + 16 * c4 + 8 * c3 + 4 * c2 + 2 * c1 + c0) / 8 % 2 = c3 := by omega
  rw [r]
  clear r
  have r : (128 * c7 + 64 * c6 + 32 * c5 + 16 * c4 + 8 * c3 + 4 * c2 + 2 * c1 + c0) / 16 % 2 = c4 := by omega
  rw [r]
  clear r
  have r : (128 * c7 + 64 * c6 + 32 * c5 + 16 * c4 + 8 * c3 + 4 * c2 + 2 * c1 + c0) / 32 % 2 = c5 := by omega
  rw [r]
  clear r
  have r : (128 * c7 + 64 * c6 + 32 * c5 + 16 * c4 + 8 * c3 + 4 * c2 + 2 * c1 + c0) / 64 % 2 = c6 := by omega
  rw [r]
  clear r
  have r : (128 * c7 + 64 * c6 + 32 * c5 + 16 * c4 + 8 * c3 + 4 * c2 + 2 * c1 + c0) / 128 % 2 = c7 := by omega
  rw [r]
  clear r
  have r : (128 * d7 + 64 * d6 + 32 * d5 + 16 * d4 + 8 * d3 + 4 * d2 + 2 * d1 + d0) % 2 = d0 := by omega
  rw [r]
  clear r
  have r : (128 * d7 + 64 * d6 + 32 * d5 + 16 * d4 + 8 * d3 + 4 * d2 + 2 * d1 + d0) / 2 % 2 = d1 := by omega
  rw [r]
  clear r
  have r : (128 * d7 + 64 * d6 + 32 * d5 + 16 * d4 + 8 * d3 + 4 * d2 + 2 * d1 + d0) / 4 % 2 = d2 := by omega
  rw [r]
  clear r
  have r : (128 * d7 + 64 * d6 + 32 * d5 + 16 * d4 + 8 * d3 + 4 * d2 + 2 * d1 + d0) / 8 % 2 = d3 := by omega
  rw [r]
  clear r
  have r : (128 * d7 + 64 * d6 + 32 * d5 + 16 * d4 + 8 * d3 + 4 * d2 + 2 * d1 + d0) / 16 % 2 = d4 := by omega
  rw [r]
  clear r
  have r : (128 * d7 + 64 * d6 + 32 * d5 + 16 * d4 + 8 * d3 + 4 * d2 + 2 * d1 + d0) / 32 % 2 = d5 := by omega
  rw [r]
  clear r
  have r : (128 * d7 + 64 * d6 + 32 * d5 + 16 * d4 + 8 * d3 + 4 * d2 + 2 * d1 + d0) / 64 % 2 = d6 := by omega
  rw [r]
  clear r
  have r : (128 * d7 + 64 * d6 + 32 * d5 + 16 * d4 + 8 * d3 + 4 * d2 + 2 * d1 + d0) / 128 % 2 = d7 := by omega
  rw [r]
  clear r
  norm_num
  omega

/-! ## Shadow-bit probing and the spec's shadow-address formula -/

/-- Bit `i` of the 16-bit shadow window loaded at shadow address `a`: the
check blobs reverse the bits of each loaded byte before shifting, so bit `i`
of the reversed window is bit `7 - i % 8` of the shadow byte at `a + i / 8`. -/
def probeBit (shadow : Nat → Nat) (a i : Nat) : Bool :=
  (shadow (a + i / 8) % 256).testBit (7 - i % 8)

/-- Modelled from the spec: the spec's shadow-address formula
`shadow(u) = (u >> 3) & ((1 << (k+1)) - 1) | (1 << k)` (spec section 3),
with `|` the bitwise or.  Compared against the `+`-based address actually
computed by the check blobs. -/
def specShadowAddr (k u : Nat) : Nat :=
  ((u >>> 3) &&& ((1 <<< (k + 1)) - 1)) ||| (1 <<< k)

/-! ## Fault classification (`handle_trap`) -/

/-- Access type of the faulting instruction (x86-64 `handle_trap`): `Write`
when the memory operand is operand 0, `Read` otherwise. -/
inductive AccessType
  | read
  | write
deriving DecidableEq

/-- The slice of the allocator's `AllocationMetadata` consulted by
`handle_trap`: only the `freed` flag decides the error kind. -/
structure ChunkMetadata where
  freed : Bool
deriving DecidableEq

/-- The error kinds `handle_trap` can report (`AsanError`); payloads
(registers, pc, fault tuple, backtrace) are not tracked. -/
inductive AsanErr
  | stackOobRead
  | stackOobWrite
  | readAfterFree
  | writeAfterFree
  | oobRead
  | oobWrite
  | unknown
deriving DecidableEq

/-- The error kind reported by the x86-64 `handle_trap` given the decoded
operand information: `accessType` is the access type of the last memory
operand (if any), `regsFound` says whether `operand_details` produced a
`(base, index, disp)` triple, `baseValue` is the value of the base register
when `register_idx` recognised it, and `findMetadata` models
`self.allocator.find_metadata`. -/
def x86Classify (stackStart stackEnd faultAddress : Nat)
    (accessType : Option AccessType) (regsFound : Bool) (baseValue : Option Nat)
    (findMetadata : Nat → Nat → Option ChunkMetadata) : AsanErr :=
  if regsFound then
    if stackStart ≤ faultAddress ∧ faultAddress < stackEnd then
      match accessType with
      | some AccessType.read => AsanErr.stackOobRead
      | some AccessType.write => AsanErr.stackOobWrite
      | none => AsanErr.unknown
    else
      match baseValue with
      | some bv =>
        (match findMetadata faultAddress bv with
         | some md =>
           (match accessType with
            | some AccessType.read =>
              if md.freed then AsanErr.readAfterFree else AsanErr.oobRead
            | some AccessType.write =>
              if md.freed then AsanErr.writeAfterFree else AsanErr.oobWrite
            | none => AsanErr.unknown)
         | none => AsanErr.unknown)
      | none => AsanErr.unknown
  else
    AsanErr.unknown

/-- The AArch64 operand forms distinguished by `handle_trap` and
`asan_is_interesting_instruction` (yaxpeax `Operand`); forms they do not
inspect are collapsed into `other`. -/
inductive ArmOperand
  | nothing
  | regRegOffset (reg1 reg2 : Nat)
  | regPreIndex (reg : Nat) (disp : Int)
  | regPostIndex (reg : Nat) (disp : Int)
  | regPostIndexReg (reg1 reg2 : Nat)
  | other
deriving DecidableEq

/-- `operands_len`: index of the first `Operand::Nothing` in the 4-slot
operand slice, or 4 when every slot is used. -/
def armOperandsLen (ops : List ArmOperand) : Nat :=
  (ops.findIdx? (fun o => decide (o = ArmOperand.nothing))).getD 4

/-- The `(base_reg, displacement)` extracted from the final memory operand by
the AArch64 `handle_trap` match; `none` models the bare `return` on an
unrecognised operand form. -/
def armTrapBaseDisp : ArmOperand → Option (Nat × Int)
  | ArmOperand.regRegOffset r1 _ => some (r1, 0)
  | ArmOperand.regPreIndex r d => some (r, d)
  | ArmOperand.regPostIndex r _ => some (r, 0)
  | ArmOperand.regPostIndexReg r _ => some (r, 0)
  | _ => none

/-- The error reported by the AArch64 `handle_trap` for the last operand of
the faulting instruction, or `none` when the handler returns early without
reporting anything.  The fault address is
`(self.regs[base_reg] as isize + displacement as isize) as usize`: a
two's-complement sum reduced modulo `2^64`.  `isLoad` models `insn.opcode.to_string().starts_with (chr)`
with the letter l, the handler's read/write test. -/
def armClassify (regs : Nat → Nat) (stackStart stackEnd : Nat)
    (lastOperand : ArmOperand) (isLoad : Bool)
    (findMetadata : Nat → Nat → Option ChunkMetadata) : Option AsanErr :=
  match armTrapBaseDisp lastOperand with
  | none => none
  | some (baseReg, disp) =>
    let faultAddress := (((regs baseReg : Int) + disp) % 18446744073709551616).toNat
    some
      (if stackStart ≤ faultAddress ∧ faultAddress < stackEnd then
        if isLoad then AsanErr.stackOobRead else AsanErr.stackOobWrite
      else
        match findMetadata faultAddress (regs baseReg) with
        | some md =>
          if isLoad then
            (if md.freed then AsanErr.readAfterFree else AsanErr.oobRead)
          else
            (if md.freed then AsanErr.writeAfterFree else AsanErr.oobWrite)
        | none => AsanErr.unknown)

/-! ## Runtime state, lifecycle and the trap handlers' state effects -/

/-- Externally visible actions of the runtime primitives called by
`pre_exec` / `post_exec`, recorded in order. -/
inductive RTEvent
  | unpoison (addr len : Nat)
  | poison (addr len : Nat)
  | enableHooks
  | disableHooks
  | checkForLeaks
  | resetAllocations
deriving DecidableEq

/-- The runtime state tracked by the model: the `hooks_enabled` flag, the
`check_for_leaks_enabled` option, the trace of primitive calls and the list
of reported errors. -/
structure AsanRuntimeState where
  hooksEnabled : Bool
  checkForLeaksEnabled : Bool
  trace : List RTEvent
  errors : List AsanErr

/-- `self.unpoison(addr, len)`. -/
def rtUnpoison (s : AsanRuntimeState) (addr len : Nat) : AsanRuntimeState :=
  { s with trace := s.trace ++ [RTEvent.unpoison addr len] }

/-- `self.poison(addr, len)`. -/
def rtPoison (s : AsanRuntimeState) (addr len : Nat) : AsanRuntimeState :=
  { s with trace := s.trace ++ [RTEvent.poison addr len] }

/-- `self.enable_hooks()`: sets `hooks_enabled = true`. -/
def rtEnableHooks (s : AsanRuntimeState) : AsanRuntimeState :=
  { s with hooksEnabled := true, trace := s.trace ++ [RTEvent.enableHooks] }

/-- `self.disable_hooks()`: sets `hooks_enabled = false`. -/
def rtDisableHooks (s : AsanRuntimeState) : AsanRuntimeState :=
  { s with hooksEnabled := false, trace := s.trace ++ [RTEvent.disableHooks] }

/-- `self.check_for_leaks()`. -/
def rtCheckForLeaks (s : AsanRuntimeState) : AsanRuntimeState :=
  { s with trace := s.trace ++ [RTEvent.checkForLeaks] }

/-- `self.reset_allocations()`. -/
def rtResetAllocations (s : AsanRuntimeState) : AsanRuntimeState :=
  { s with trace := s.trace ++ [RTEvent.resetAllocations] }

/-- `pre_exec`: unpoison the input bytes, then enable hooks. -/
def preExec (s : AsanRuntimeState) (inputAddr inputLen : Nat) : AsanRuntimeState :=
  rtEnableHooks (rtUnpoison s inputAddr inputLen)

/-- `post_exec`: disable hooks; run leak detection iff
`check_for_leaks_enabled`; poison the input bytes; reset allocations. -/
def postExec (s : AsanRuntimeState) (inputAddr inputLen : Nat) : AsanRuntimeState :=
  let s1 := rtDisableHooks s
  let s2 := if s1.checkForLeaksEnabled then rtCheckForLeaks s1 else s1
  let s3 := rtPoison s2 inputAddr inputLen
  rtResetAllocations s3

/-- State effect of the x86-64 `handle_trap`: its first statement is
`self.hooks_enabled = false` (never undone before returning), then the
classified error is reported. -/
def handleTrapX86 (s : AsanRuntimeState) (stackStart stackEnd faultAddress : Nat)
    (accessType : Option AccessType) (regsFound : Bool) (baseValue : Option Nat)
    (findMetadata : Nat → Nat → Option ChunkMetadata) : AsanRuntimeState :=
  let s1 := { s with hooksEnabled := false }
  { s1 with
    errors := s1.errors ++
      [x86Classify stackStart stackEnd faultAddress accessType regsFound baseValue
        findMetadata] }

/-- State effect of the AArch64 `handle_trap`: it never touches
`hooks_enabled`; on an unrecognised operand it returns without reporting,
otherwise it reports the classified error. -/
def handleTrapArm (s : AsanRuntimeState) (regs : Nat → Nat)
    (stackStart stackEnd : Nat) (lastOperand : ArmOperand) (isLoad : Bool)
    (findMetadata : Nat → Nat → Option ChunkMetadata) : AsanRuntimeState :=
  match armClassify regs stackStart stackEnd lastOperand isLoad findMetadata with
  | none => s
  | some err => { s with errors := s.errors ++ [err] }

/-! ## True-PC lookup and the stalked-address map -/

/-- `actual_pc` as taken by the x86-64 `handle_trap`: `self.regs[18]`
directly, with no stalked-address lookup. -/
def x86TrapActualPc (regs : Nat → Nat) : Nat :=
  regs 18

/-- `actual_pc` as computed by the AArch64 `handle_trap`: `self.regs[31]`
looked up in `self.stalked_addresses` (modelled as an association list),
falling back to the trapped pc itself. -/
def armTrapActualPc (regs : Nat → Nat) (stalkedAddresses : List (Nat × Nat)) : Nat :=
  match List.lookup (regs 31) stalkedAddresses with
  | some addr => addr
  | none => regs 31

/-- `real_address_for_stalked`: `self.stalked_addresses.get(stalked)
.map_or(stalked, deref)`. -/
def realAddressForStalked (stalkedAddresses : List (Nat × Nat)) (stalked : Nat) : Nat :=
  match List.lookup stalked stalkedAddresses with
  | some addr => addr
  | none => stalked

/-! ## The instrumentation filter (`asan_is_interesting_instruction`) -/

/-- AArch64 opcodes relevant to the filter: the 18 opcodes of the ignore
list, `LDARH` (an atomic load-acquire halfword, absent from that list), and
`other` for the rest. -/
inductive ArmOpcode
  | LDAXR
  | STLXR
  | LDXR
  | LDAR
  | STLR
  | LDARB
  | LDAXP
  | LDAXRB
  | LDAXRH
  | STLRB
  | STLRH
  | STLXP
  | STLXRB
  | STLXRH
  | LDXRB
  | LDXRH
  | STXRB
  | STXRH
  | LDARH
  | other
deriving DecidableEq

/-- The opcode match at the top of the AArch64
`asan_is_interesting_instruction`: exactly the source's 18-opcode list
(`LDARH` is not in it). -/
def armIgnoredOpcode : ArmOpcode → Bool
  | ArmOpcode.LDAXR => true
  | ArmOpcode.STLXR => true
  | ArmOpcode.LDXR => true
  | ArmOpcode.LDAR => true
  | ArmOpcode.STLR => true
  | ArmOpcode.LDARB => true
  | ArmOpcode.LDAXP => true
  | ArmOpcode.LDAXRB => true
  | ArmOpcode.LDAXRH => true
  | ArmOpcode.STLRB => true
  | ArmOpcode.STLRH => true
  | ArmOpcode.STLXP => true
  | ArmOpcode.STLXRB => true
  | ArmOpcode.STLXRH => true
  | ArmOpcode.LDXRB => true
  | ArmOpcode.LDXRH => true
  | ArmOpcode.STXRB => true
  | ArmOpcode.STXRH => true
  | _ => false

/-- An AArch64 instruction as the filter sees it. -/
structure ArmInsn where
  opcode : ArmOpcode
  operands : List ArmOperand

/-- The AArch64 `asan_is_interesting_instruction`: `none` for the ignore
list, for fewer than two operands, and for an unrecognised final operand;
otherwise `(reg1, reg2?, displacement)` of the final (memory) operand.  The
`instruction_width` and shift components of the source's return value come
from `utils.rs`, which is not part of the staged sources, and are omitted. -/
def asanIsInterestingInstructionArm (insn : ArmInsn) : Option (Nat × Option Nat × Int) :=
  if armIgnoredOpcode insn.opcode then none
  else
    if armOperandsLen insn.operands < 2 then none
    else
      match insn.operands.getD (armOperandsLen insn.operands - 1) ArmOperand.nothing with
      | ArmOperand.regRegOffset r1 r2 => some (r1, some r2, 0)
      | ArmOperand.regPreIndex r d => some (r, none, d)
      | ArmOperand.regPostIndex r _ => some (r, none, 0)
      | ArmOperand.regPostIndexReg r _ => some (r, none, 0)
      | _ => none

/-- x86-64 opcodes relevant to the filter: `LEA` and `NOP` are
white-listed, everything else is `other`. -/
inductive X86Opcode
  | lea
  | nop
  | other
deriving DecidableEq

/-- An x86-64 operand as the filter sees it: whether it is a memory operand
and, if so, the `(base, index, scale, disp)` quadruple `operand_details`
extracts (`none` when `operand_details` fails). -/
structure X86Operand where
  isMemory : Bool
  details : Option (Nat × Nat × Nat × Int)

/-- An x86-64 instruction as the filter sees it; `memSize` models
`cs_instr.mem_size().unwrap().bytes_size().unwrap()`. -/
structure X86Insn where
  opcode : X86Opcode
  repAny : Bool
  operands : List X86Operand
  memSize : Nat

/-- The operand loop of the x86-64 filter: the details of the first memory
operand for which `operand_details` succeeds. -/
def x86FirstMemOperand : List X86Operand → Option (Nat × Nat × Nat × Int)
  | [] => none
  | o :: rest =>
    if o.isMemory then
      match o.details with
      | some d => some d
      | none => x86FirstMemOperand rest
    else x86FirstMemOperand rest

/-- The x86-64 `asan_is_interesting_instruction`: `none` for `lea` / `nop`
and for `rep`-prefixed instructions, else the size and details of the first
usable memory operand. -/
def asanIsInterestingInstructionX86 (insn : X86Insn) :
    Option (Nat × Nat × Nat × Nat × Int) :=
  match insn.opcode with
  | X86Opcode.lea => none
  | X86Opcode.nop => none
  | X86Opcode.other =>
    if insn.repAny then none
    else
      match x86FirstMemOperand insn.operands with
      | some (b, i, sc, d) => some (insn.memSize, b, i, sc, d)
      | none => none

/-! ## The check blobs as instruction lists -/

/-- The x86-64 check-blob instructions (`dynasm!` block of
`generate_shadow_check_blob`, one constructor per emitted instruction). -/
inductive X86BlobInsn
  | movClByte (v : Nat)
  | movRaxNeg2
  | shlRaxCl
  | movRdxRdi
  | shrRdxImm (n : Nat)
  | notRax
  | andRaxRdx
  | movEdxOne
  | shlRdxCl
  | movzxEaxWordRaxRdx
  | rolAxImm (n : Nat)
  | movEcxEax
  | shrEcxImm (n : Nat)
  | andEcxImm (v : Int)
  | shlEaxImm (n : Nat)
  | andEaxImm (v : Int)
  | orEaxEcx
  | leaEaxRcx4Rax
  | leaEaxRcx2Rax
  | movzxEdxAx
  | andDilImm (v : Nat)
  | movEcxEdi
  | shrEdxCl
  | movEaxNeg1
  | shlEaxCl
  | notEax
  | movzxEcxAl
  | andEdxEcx
  | xorEaxEax
  | cmpEdxEcx
  | jeDone
  | leaRsiDone
  | nop
deriving DecidableEq

/-- The AArch64 check-blob instructions (both `dynasm!` blocks). -/
inductive ArmBlobInsn
  | stpX2X3Pre
  | movX1Imm (v : Nat)
  | addX1X0Lsr3
  | ubfxX1 (width : Nat)
  | movX2Imm (v : Nat)
  | addX1X2Lsl (n : Nat)
  | ldrhW1X1
  | andX0Imm (v : Nat)
  | rev16W1
  | rbitW1
  | lsrX1Imm (n : Nat)
  | lsrX1X0
  | ldpX2X3Post
  | tbnzX1Done (bit : Nat)
  | mrsX0Nzcv
  | movX2Val (v : Nat)
  | andsX1X1X2
  | bneDone
  | adrX1Done
  | nop
deriving DecidableEq

/-- `v[..v.len() - n]`: the blob with its last `n` elements dropped. -/
def dropLastN {A : Type} (n : Nat) (l : List A) : List A :=
  l.take (l.length - n)

/-- `generate_shadow_check_blob` (x86-64) as an instruction list: the
`dynasm!` sequence for `shadow_bit` and `bit`, with the trailing 10 one-byte
`nop`s dropped (`ops_vec[..len - 10]`). -/
def generateShadowCheckBlobX86 (shadowBit bit : Nat) : List X86BlobInsn :=
  dropLastN 10
  ([X86BlobInsn.movClByte (shadowBit % 256), X86BlobInsn.movRaxNeg2,
    X86BlobInsn.shlRaxCl, X86BlobInsn.movRdxRdi, X86BlobInsn.shrRdxImm 3,
    X86BlobInsn.notRax, X86BlobInsn.andRaxRdx, X86BlobInsn.movEdxOne,
    X86BlobInsn.shlRdxCl, X86BlobInsn.movzxEaxWordRaxRdx, X86BlobInsn.rolAxImm 8,
    X86BlobInsn.movEcxEax, X86BlobInsn.shrEcxImm 4, X86BlobInsn.andEcxImm 3855,
    X86BlobInsn.shlEaxImm 4, X86BlobInsn.andEaxImm (-3856), X86BlobInsn.orEaxEcx,
    X86BlobInsn.movEcxEax, X86BlobInsn.shrEcxImm 2, X86BlobInsn.andEcxImm 13107,
    X86BlobInsn.andEaxImm (-3277), X86BlobInsn.leaEaxRcx4Rax,
    X86BlobInsn.movEcxEax, X86BlobInsn.shrEcxImm 1, X86BlobInsn.andEcxImm 21845,
    X86BlobInsn.andEaxImm (-10923), X86BlobInsn.leaEaxRcx2Rax,
    X86BlobInsn.rolAxImm 8, X86BlobInsn.movzxEdxAx, X86BlobInsn.andDilImm 7,
    X86BlobInsn.movEcxEdi, X86BlobInsn.shrEdxCl, X86BlobInsn.movClByte (bit % 256),
    X86BlobInsn.movEaxNeg1, X86BlobInsn.shlEaxCl, X86BlobInsn.notEax,
    X86BlobInsn.movzxEcxAl, X86BlobInsn.andEdxEcx, X86BlobInsn.xorEaxEax,
    X86BlobInsn.cmpEdxEcx, X86BlobInsn.jeDone, X86BlobInsn.leaRsiDone,
    X86BlobInsn.nop, X86BlobInsn.nop, X86BlobInsn.nop, X86BlobInsn.nop,
    X86BlobInsn.nop, X86BlobInsn.nop, X86BlobInsn.nop, X86BlobInsn.nop,
    X86BlobInsn.nop, X86BlobInsn.nop])

/-- `generate_shadow_check_blob` (AArch64) as an instruction list, with the
trailing 4-byte `nop` dropped (`ops_vec[..len - 4]`). -/
def generateShadowCheckBlobArm (shadowBit bit : Nat) : List ArmBlobInsn :=
  dropLastN 1
  ([ArmBlobInsn.stpX2X3Pre, ArmBlobInsn.movX1Imm 0, ArmBlobInsn.addX1X0Lsr3,
    ArmBlobInsn.ubfxX1 (shadowBit + 1), ArmBlobInsn.movX2Imm 1,
    ArmBlobInsn.addX1X2Lsl shadowBit, ArmBlobInsn.ldrhW1X1,
    ArmBlobInsn.andX0Imm 7, ArmBlobInsn.rev16W1, ArmBlobInsn.rbitW1,
    ArmBlobInsn.lsrX1Imm 16, ArmBlobInsn.lsrX1X0, ArmBlobInsn.ldpX2X3Post,
    ArmBlobInsn.tbnzX1Done bit, ArmBlobInsn.adrX1Done,
    ArmBlobInsn.nop])

/-- `generate_shadow_check_exact_blob` (AArch64) as an instruction list,
with the trailing 4-byte `nop` dropped. -/
def generateShadowCheckExactBlobArm (shadowBit val : Nat) : List ArmBlobInsn :=
  dropLastN 1
  ([ArmBlobInsn.stpX2X3Pre, ArmBlobInsn.movX1Imm 0, ArmBlobInsn.addX1X0Lsr3,
    ArmBlobInsn.ubfxX1 (shadowBit + 1), ArmBlobInsn.movX2Imm 1,
    ArmBlobInsn.addX1X2Lsl shadowBit, ArmBlobInsn.ldrhW1X1,
    ArmBlobInsn.andX0Imm 7, ArmBlobInsn.rev16W1, ArmBlobInsn.rbitW1,
    ArmBlobInsn.lsrX1Imm 16, ArmBlobInsn.lsrX1X0, ArmBlobInsn.mrsX0Nzcv,
    ArmBlobInsn.movX2Val val, ArmBlobInsn.andsX1X1X2, ArmBlobInsn.ldpX2X3Post,
    ArmBlobInsn.bneDone, ArmBlobInsn.adrX1Done, ArmBlobInsn.nop])

/-! ## Bit-level helper lemmas -/

theorem and_mask_eq_iff (x b : Nat) :
    (x &&& (2 ^ b - 1)) = 2 ^ b - 1 ↔ ∀ j, j < b → x.testBit j = true := by
  rw [Nat.and_pow_two_sub_one_eq_mod]
  constructor
  · intro h j hj
    have hx : x.testBit j = (x % 2 ^ b).testBit j := by
      rw [Nat.testBit_mod_two_pow]
      simp [hj]
    rw [hx, h, Nat.testBit_two_pow_sub_one]
    simp [hj]
  · intro h
    apply Nat.eq_of_testBit_eq
    intro j
    rw [Nat.testBit_mod_two_pow, Nat.testBit_two_pow_sub_one]
    by_cases hj : j < b
    · simp [hj, h j hj]
    · simp [hj]

theorem and_ne_zero_iff (x y : Nat) :
    x &&& y ≠ 0 ↔ ∃ j, x.testBit j = true ∧ y.testBit j = true := by
  constructor
  · intro h
    by_contra hc
    push_neg at hc
    apply h
    apply Nat.eq_of_testBit_eq
    intro j
    rw [Nat.testBit_and, Nat.zero_testBit]
    have := hc j
    cases hx : Nat.testBit x j <;> cases hy : Nat.testBit y j <;> simp_all
  · rintro ⟨j, hx, hy⟩ h0
    have hb : (x &&& y).testBit j = false := by rw [h0]; exact Nat.zero_testBit j
    rw [Nat.testBit_and, hx, hy] at hb
    simp at hb

theorem and_two_pow_eq_zero_of_testBit_false (x i : Nat) (h : x.testBit i = false) :
    x &&& 2 ^ i = 0 := by
  apply Nat.eq_of_testBit_eq
  intro j
  rw [Nat.testBit_and, Nat.zero_testBit]
  by_cases hj : j = i
  · subst hj; rw [h]; simp
  · rw [Nat.testBit_two_pow_of_ne (fun he => hj he.symm)]; simp

set_option maxRecDepth 8000 in
theorem revByte_testBit :
    ∀ b, b < 256 → ∀ i, i < 8 → (revByte b).testBit i = b.testBit (7 - i) := by
  decide

set_option maxRecDepth 8000 in
theorem revByte_invol : ∀ b, b < 256 → revByte (revByte b) = b := by
  decide

theorem revInBytes_lt (v : Nat) : revInBytes v < 65536 := by
  unfold revInBytes
  have h0 := revByte_lt (v % 256)
  have h1 := revByte_lt (v / 256 % 256)
  omega

theorem revInBytes_invol (v : Nat) (hv : v < 65536) : revInBytes (revInBytes v) = v := by
  obtain ⟨B1, B0, h1, h0, rfl⟩ :
      ∃ B1 B0, B1 < 256 ∧ B0 < 256 ∧ v = 256 * B1 + B0 :=
    ⟨v / 256, v % 256, by omega, by omega, by omega⟩
  have ha : (256 * B1 + B0) % 256 = B0 := by omega
  have hb : (256 * B1 + B0) / 256 % 256 = B1 := by omega
  have hinner : revInBytes (256 * B1 + B0) = revByte B0 + 256 * revByte B1 := by
    rw [revInBytes, ha, hb]
  have hr0 := revByte_lt B0
  have hr1 := revByte_lt B1
  have hc : (revByte B0 + 256 * revByte B1) % 256 = revByte B0 := by omega
  have hd : (revByte B0 + 256 * revByte B1) / 256 % 256 = revByte B1 := by omega
  rw [hinner, revInBytes, hc, hd, revByte_invol B0 h0, revByte_invol B1 h1]
  omega

theorem window_testBit (s0 s1 : Nat) (h0 : s0 < 256) (h1 : s1 < 256) :
    ∀ i, i < 16 → (revInBytes (s0 + 256 * s1)).testBit i =
      if i < 8 then s0.testBit (7 - i) else s1.testBit (15 - i) := by
  intro i hi
  have ha : (s0 + 256 * s1) % 256 = s0 := by omega
  have hb : (s0 + 256 * s1) / 256 % 256 = s1 := by omega
  rw [revInBytes, ha, hb]
  have hlt := revByte_lt s0
  have hadd : revByte s0 + 256 * revByte s1 = 2 ^ 8 * revByte s1 + revByte s0 := by
    norm_num; omega
  rw [hadd, Nat.testBit_mul_pow_two_add _ (by norm_num; omega)]
  by_cases h8 : i < 8
  · simp only [h8, if_true]
    exact revByte_testBit s0 h0 i h8
  · simp only [h8, if_false]
    have hi8 : i - 8 < 8 := by omega
    rw [revByte_testBit s1 h1 (i - 8) hi8]
    have : 7 - (i - 8) = 15 - i := by omega
    rw [this]

theorem probeBit_eq_window (shadow : Nat → Nat) (a : Nat) :
    ∀ i, i < 16 → probeBit shadow a i =
      (revInBytes (shadow a % 256 + 256 * (shadow (a + 1) % 256))).testBit i := by
  intro i hi
  rw [window_testBit _ _ (Nat.mod_lt _ (by norm_num)) (Nat.mod_lt _ (by norm_num)) i hi]
  unfold probeBit
  by_cases h8 : i < 8
  · have hd : i / 8 = 0 := Nat.div_eq_of_lt h8
    have hm : i % 8 = i := Nat.mod_eq_of_lt h8
    rw [hd, hm]
    simp [h8]
  · have hd : i / 8 = 1 := by omega
    have hm : i % 8 = i - 8 := by omega
    have h7 : 7 - (i - 8) = 15 - i := by omega
    rw [hd, hm, h7]
    simp [h8]

/-- The immediate-mask computation of the x86-64 check blob, closed over the
six values of `bit`. -/
theorem x86MaskValue :
    ∀ bit, bit ≤ 5 →
      (4294967295 - ((4294967295 <<< (bit % 256 % 32)) % 4294967296)) % 256 =
        2 ^ bit - 1 := by
  decide

theorem x86ClValue (u : Nat) :
    ((256 * (u / 256) + ((u % 256) &&& 7)) % 4294967296) % 256 = u % 8 := by
  rw [and_7]
  have h1 : u % 256 % 8 = u % 8 := Nat.mod_mod_of_dvd u (by norm_num)
  rw [h1]
  have h2 : ((256 * (u / 256) + u % 8) % 4294967296) % 256 =
      (256 * (u / 256) + u % 8) % 256 := Nat.mod_mod_of_dvd _ (by norm_num)
  rw [h2]
  omega

/-! ## Shadow-address closed forms -/

theorem x86ShlNeg2 :
    ∀ sb, sb ≤ 62 →
      (18446744073709551614 <<< (sb % 64)) % 18446744073709551616 =
        18446744073709551616 - 2 ^ (sb + 1) := by
  decide

theorem shlOneMod64 :
    ∀ sb, sb ≤ 62 → (1 <<< (sb % 64)) % 18446744073709551616 = 2 ^ sb := by
  decide

theorem shlOne64 :
    ∀ sb, sb ≤ 62 → (1 <<< sb) % 18446744073709551616 = 2 ^ sb := by
  decide

theorem notShl :
    ∀ sb, sb ≤ 62 →
      18446744073709551615 - (18446744073709551616 - 2 ^ (sb + 1)) =
        2 ^ (sb + 1) - 1 := by
  decide

theorem addrBound :
    ∀ sb, sb ≤ 62 → 2 ^ (sb + 1) - 1 + 2 ^ sb < 18446744073709551616 := by
  decide

theorem x86ShadowCheckAddr_closed (sb u : Nat) (h : sb ≤ 62) :
    x86ShadowCheckAddr sb u = (u >>> 3) % 2 ^ (sb + 1) + 2 ^ sb := by
  have hm : sb % 256 = sb := Nat.mod_eq_of_lt (by omega)
  simp only [x86ShadowCheckAddr]
  rw [hm, x86ShlNeg2 sb h, shlOneMod64 sb h, notShl sb h,
    Nat.land_comm, Nat.and_pow_two_sub_one_eq_mod]
  have hlt : (u >>> 3) % 2 ^ (sb + 1) + 2 ^ sb < 18446744073709551616 := by
    have h1 : (u >>> 3) % 2 ^ (sb + 1) < 2 ^ (sb + 1) :=
      Nat.mod_lt _ (Nat.pos_pow_of_pos _ (by norm_num))
    have h2 := addrBound sb h
    omega
  exact Nat.mod_eq_of_lt hlt

theorem armShadowCheckAddr_closed (sb u : Nat) (h : sb ≤ 62) :
    armShadowCheckAddr sb u = (u >>> 3) % 2 ^ (sb + 1) + 2 ^ sb := by
  simp only [armShadowCheckAddr]
  rw [shlOne64 sb h]
  have hlt : (u >>> 3) % 2 ^ (sb + 1) + 2 ^ sb < 18446744073709551616 := by
    have h1 : (u >>> 3) % 2 ^ (sb + 1) < 2 ^ (sb + 1) :=
      Nat.mod_lt _ (Nat.pos_pow_of_pos _ (by norm_num))
    have h2 := addrBound sb h
    omega
  exact Nat.mod_eq_of_lt hlt

/-! ## The claims -/

/-- C1 (counterexample): with `shadow_bit = 8`, the x86-64 width-4 check
blob (`bit = 3`, the `blob_check_mem_dword` parameter) passes at `u = 0`
on a shadow memory whose byte at the computed shadow address is `224`,
although the shadow bit covering the last byte of `[u, u+4)` is clear: the
blob tests only `log2(width) + 1 = 3` shadow bits, not `width = 4`. -/
theorem asan_C1_counterexample :
    x86ShadowCheckPasses 8 3 0 (fun a => if a = 256 then 224 else 0) = true
  ∧ probeBit (fun a => if a = 256 then 224 else 0) (x86ShadowCheckAddr 8 0) 3 = false := by
  constructor
  · decide
  · decide

/-- C1 (amended): what the check blobs actually test.  The x86-64 blob for
parameter `bit ≤ 5` passes iff the `bit` consecutive shadow bits starting
at `u % 8` are all set (widths 1, 2, 4, 8, 16 use `bit` = 1, 2, 3, 4, 5 =
`log2(width) + 1`, so wide accesses are under-checked).  The AArch64
power-of-two blob for `bit ≤ 4` tests exactly the single shadow bit at
`u % 8 + bit`.  The AArch64 exact blob for mask `val < 128` passes iff at
least one bit position `j` set in `val` has the shadow bit `u % 8 + j`
set. -/
theorem asan_C1_amended (shadow : Nat → Nat) (sb u bit val : Nat) :
    (bit ≤ 5 →
      (x86ShadowCheckPasses sb bit u shadow = true ↔
        ∀ j, j < bit →
          probeBit shadow (x86ShadowCheckAddr sb u) (u % 8 + j) = true))
  ∧ (bit ≤ 4 →
      armShadowCheckPasses sb bit u shadow =
        probeBit shadow (armShadowCheckAddr sb u) (u % 8 + bit))
  ∧ (val < 128 →
      (armShadowCheckExactPasses sb val u shadow = true ↔
        ∃ j, j < 7 ∧ val.testBit j = true ∧
          probeBit shadow (armShadowCheckAddr sb u) (u % 8 + j) = true)) := by
  refine ⟨?_, ?_, ?_⟩
  · intro hbit
    simp only [x86ShadowCheckPasses]
    rw [x86BitRearrange_eq_revInBytes _ (by
      have := Nat.mod_lt (shadow (x86ShadowCheckAddr sb u)) (show 0 < 256 by norm_num)
      have := Nat.mod_lt (shadow (x86ShadowCheckAddr sb u + 1)) (show 0 < 256 by norm_num)
      omega)]
    rw [x86ClValue u, x86MaskValue bit hbit]
    have hshift : u % 8 % 32 = u % 8 := Nat.mod_eq_of_lt (by omega)
    rw [hshift, beq_iff_eq, and_mask_eq_iff]
    constructor
    · intro h j hj
      rw [probeBit_eq_window shadow _ (u % 8 + j) (by omega)]
      have hb := h j hj
      rwa [Nat.testBit_shiftRight] at hb

    · intro h j hj
      rw [Nat.testBit_shiftRight,
        ← probeBit_eq_window shadow _ (u % 8 + j) (by omega)]
      exact h j hj
  · intro hbit
    simp only [armShadowCheckPasses]
    rw [armBitRearrange_eq_revInBytes _ (by
      have := Nat.mod_lt (shadow (armShadowCheckAddr sb u)) (show 0 < 256 by norm_num)
      have := Nat.mod_lt (shadow (armShadowCheckAddr sb u + 1)) (show 0 < 256 by norm_num)
      omega)]
    rw [and_7]
    have hshift : u % 8 % 64 = u % 8 := Nat.mod_eq_of_lt (by omega)
    rw [hshift, Nat.testBit_shiftRight,
      probeBit_eq_window shadow _ (u % 8 + bit) (by omega)]
  · intro hval
    simp only [armShadowCheckExactPasses]
    rw [armBitRearrange_eq_revInBytes _ (by
      have := Nat.mod_lt (shadow (armShadowCheckAddr sb u)) (show 0 < 256 by norm_num)
      have := Nat.mod_lt (shadow (armShadowCheckAddr sb u + 1)) (show 0 < 256 by norm_num)
      omega)]
    rw [and_7]
    have hshift : u % 8 % 64 = u % 8 := Nat.mod_eq_of_lt (by omega)
    rw [hshift, bne_iff_ne, and_ne_zero_iff]
    constructor
    · rintro ⟨j, hx, hv⟩
      have hj : j < 7 := by
        have hge := Nat.testBit_implies_ge hv
        by_contra hc
        push_neg at hc
        have : (128 : Nat) ≤ 2 ^ j := by
          calc (128 : Nat) = 2 ^ 7 := by norm_num
          _ ≤ 2 ^ j := Nat.pow_le_pow_right (by norm_num) hc
        omega
      refine ⟨j, hj, hv, ?_⟩
      rw [probeBit_eq_window shadow _ (u % 8 + j) (by omega)]
      rwa [Nat.testBit_shiftRight] at hx
    · rintro ⟨j, hj, hv, hp⟩
      refine ⟨j, ?_, hv⟩
      rw [Nat.testBit_shiftRight,
        ← probeBit_eq_window shadow _ (u % 8 + j) (by omega)]
      exact hp

/-- C1 (witness): the AArch64 width-4 blob (`bit = 2`) on an all-poisoned
shadow at `u = 5` tests exactly the shadow bit at `5 % 8 + 2`. -/
theorem asan_C1_witness :
    armShadowCheckPasses 8 2 5 (fun _ => 255) =
      probeBit (fun _ => 255) (armShadowCheckAddr 8 5) (5 % 8 + 2) :=
  (asan_C1_amended (fun _ => 255) 8 5 2 0).2.1 (by decide)

/-- C2 (counterexample): for `shadow_bit = 4` and `u = 128` the blobs add
`1 << 4` into a masked value whose bit 4 is already set, so the computed
address is 32, while the spec's or-based formula gives 16. -/
theorem asan_C2_counterexample :
    x86ShadowCheckAddr 4 128 = 32 ∧ armShadowCheckAddr 4 128 = 32 ∧
      specShadowAddr 4 128 = 16 := by
  refine ⟨by decide, by decide, by decide⟩

/-- C2 (amended): for every `shadow_bit = sb ≤ 62` and user address `u`,
both check blobs compute the shadow address
`(u >> 3) % 2^(sb+1) + 2^sb` (an addition, not an or); this agrees with
the spec's formula exactly when bit `sb` of `u >> 3` is clear. -/
theorem asan_C2_amended (sb u : Nat) (h : sb ≤ 62) :
    x86ShadowCheckAddr sb u = (u >>> 3) % 2 ^ (sb + 1) + 2 ^ sb
  ∧ armShadowCheckAddr sb u = (u >>> 3) % 2 ^ (sb + 1) + 2 ^ sb
  ∧ ((u >>> 3).testBit sb = false →
      x86ShadowCheckAddr sb u = specShadowAddr sb u ∧
      armShadowCheckAddr sb u = specShadowAddr sb u) := by
  refine ⟨x86ShadowCheckAddr_closed sb u h, armShadowCheckAddr_closed sb u h, ?_⟩
  intro hbit
  have hspec : specShadowAddr sb u = (u >>> 3) % 2 ^ (sb + 1) + 2 ^ sb := by
    unfold specShadowAddr
    rw [Nat.one_shiftLeft, Nat.one_shiftLeft, Nat.and_pow_two_sub_one_eq_mod]
    have hmb : ((u >>> 3) % 2 ^ (sb + 1)).testBit sb = false := by
      rw [Nat.testBit_mod_two_pow]
      simp [Nat.lt_succ_self, hbit]
    rw [← or_eq_add_of_and_eq_zero _ _
      (and_two_pow_eq_zero_of_testBit_false _ sb hmb)]
  rw [hspec]
  exact ⟨x86ShadowCheckAddr_closed sb u h, armShadowCheckAddr_closed sb u h⟩

/-- C2 (witness): at `shadow_bit = 8`, `u = 0` the closed form applies. -/
theorem asan_C2_witness :
    x86ShadowCheckAddr 8 0 = (0 >>> 3) % 2 ^ 9 + 2 ^ 8 :=
  (asan_C2_amended 8 0 (by decide)).1

/-- C3 (counterexample): a fault whose address lies inside the reported
stack range is still recorded as `Unknown` by the x86-64 handler when no
memory operand with details was decoded, and the AArch64 handler records
nothing at all when the final operand has an unrecognised form. -/
theorem asan_C3_counterexample :
    x86Classify 0 100 50 (some AccessType.read) false none (fun _ _ => none) =
      AsanErr.unknown
  ∧ armClassify (fun _ => 50) 0 100 ArmOperand.other true (fun _ _ => none) = none
  ∧ (0 : Nat) ≤ 50 ∧ (50 : Nat) < 100 := by
  refine ⟨rfl, rfl, by decide, by decide⟩

/-- C3 (amended): the fault classification, with the preconditions the code
actually imposes.  x86-64: only when a memory operand with details was
decoded (`regsFound = true`) does the handler classify — in-stack faults by
access type, off-stack faults through `find_metadata` but only when the base
register's value is known; in every other case `Unknown` is recorded, even
for in-stack faults without a decoded operand.  AArch64: an unrecognised
final operand records nothing; otherwise in-stack faults classify by the
load test and off-stack faults through `find_metadata` on the base
register's value. -/
theorem asan_C3_amended (stackStart stackEnd faultAddress : Nat)
    (accessType : Option AccessType) (baseValue : Option Nat)
    (fm : Nat → Nat → Option ChunkMetadata)
    (regs : Nat → Nat) (op : ArmOperand) (isLoad : Bool) :
    (stackStart ≤ faultAddress ∧ faultAddress < stackEnd →
      x86Classify stackStart stackEnd faultAddress accessType true baseValue fm =
        (match accessType with
         | some AccessType.read => AsanErr.stackOobRead
         | some AccessType.write => AsanErr.stackOobWrite
         | none => AsanErr.unknown))
  ∧ (¬(stackStart ≤ faultAddress ∧ faultAddress < stackEnd) →
      ∀ bv md, baseValue = some bv → fm faultAddress bv = some md →
        x86Classify stackStart stackEnd faultAddress accessType true baseValue fm =
          (match accessType with
           | some AccessType.read =>
             if md.freed then AsanErr.readAfterFree else AsanErr.oobRead
           | some AccessType.write =>
             if md.freed then AsanErr.writeAfterFree else AsanErr.oobWrite
           | none => AsanErr.unknown))
  ∧ (¬(stackStart ≤ faultAddress ∧ faultAddress < stackEnd) →
      (baseValue = none ∨ ∃ bv, baseValue = some bv ∧ fm faultAddress bv = none) →
      x86Classify stackStart stackEnd faultAddress accessType true baseValue fm =
        AsanErr.unknown)
  ∧ (x86Classify stackStart stackEnd faultAddress accessType false baseValue fm =
      AsanErr.unknown)
  ∧ (armTrapBaseDisp op = none →
      armClassify regs stackStart stackEnd op isLoad fm = none)
  ∧ (∀ b d, armTrapBaseDisp op = some (b, d) →
      (stackStart ≤ (((regs b : Int) + d) % 18446744073709551616).toNat ∧
          (((regs b : Int) + d) % 18446744073709551616).toNat < stackEnd →
        armClassify regs stackStart stackEnd op isLoad fm =
          some (if isLoad then AsanErr.stackOobRead else AsanErr.stackOobWrite))
      ∧ (¬(stackStart ≤ (((regs b : Int) + d) % 18446744073709551616).toNat ∧
            (((regs b : Int) + d) % 18446744073709551616).toNat < stackEnd) →
          ∀ md, fm ((((regs b : Int) + d) % 18446744073709551616).toNat) (regs b) = some md →
            armClassify regs stackStart stackEnd op isLoad fm =
              some (match isLoad, md.freed with
                    | true, true => AsanErr.readAfterFree
                    | true, false => AsanErr.oobRead
                    | false, true => AsanErr.writeAfterFree
                    | false, false => AsanErr.oobWrite))
      ∧ (¬(stackStart ≤ (((regs b : Int) + d) % 18446744073709551616).toNat ∧
            (((regs b : Int) + d) % 18446744073709551616).toNat < stackEnd) →
          fm ((((regs b : Int) + d) % 18446744073709551616).toNat) (regs b) = none →
          armClassify regs stackStart stackEnd op isLoad fm =
            some AsanErr.unknown)) := by
  refine ⟨?_, ?_, ?_, rfl, ?_, ?_⟩
  · intro hs
    simp [x86Classify, hs]
  · intro hs bv md hbv hmd
    subst hbv
    simp [x86Classify, hs, hmd]
  · intro hs hcase
    rcases hcase with hb | ⟨bv, hbv, hfm⟩
    · subst hb
      simp [x86Classify, hs]
    · subst hbv
      simp [x86Classify, hs, hfm]
  · intro h
    simp [armClassify, h]
  · intro b d hbd
    refine ⟨?_, ?_, ?_⟩
    · intro hstk
      simp [armClassify, hbd, hstk]
    · intro hstk md hmd
      simp only [armClassify, hbd]
      rw [if_neg hstk, hmd]
      cases isLoad <;> cases hfr : md.freed <;> simp [hfr]
    · intro hstk hfm
      simp only [armClassify, hbd]
      rw [if_neg hstk, hfm]

/-- C3 (witness): an in-stack read fault with a decoded memory operand is
recorded as `StackOobRead`. -/
theorem asan_C3_witness :
    x86Classify 0 100 50 (some AccessType.read) true none (fun _ _ => none) =
      AsanErr.stackOobRead :=
  (asan_C3_amended 0 100 50 (some AccessType.read) none (fun _ _ => none)
    (fun _ => 0) ArmOperand.other true).1 (by decide)

/-- C4: the 16-bit bit rearrangement performed by the x86-64 and AArch64
check blobs is self-inverse on 16-bit words. -/
theorem asan_C4 (v : Nat) (hv : v < 65536) :
    x86BitRearrange (x86BitRearrange v) = v
  ∧ armBitRearrange (armBitRearrange v) = v := by
  constructor
  · rw [x86BitRearrange_eq_revInBytes v hv,
      x86BitRearrange_eq_revInBytes _ (revInBytes_lt v),
      revInBytes_invol v hv]
  · rw [armBitRearrange_eq_revInBytes v hv,
      armBitRearrange_eq_revInBytes _ (revInBytes_lt v),
      revInBytes_invol v hv]

/-- C4 (witness): the rearrangement applied twice to 513 gives 513. -/
theorem asan_C4_witness :
    x86BitRearrange (x86BitRearrange 513) = 513
  ∧ armBitRearrange (armBitRearrange 513) = 513 :=
  asan_C4 513 (by decide)

/-- C5 (counterexample): the x86-64 `handle_trap` leaves `hooks_enabled`
false after returning (it is never restored on exit), and the AArch64
`handle_trap` never touches it (it stays true throughout fault handling),
refuting both halves of the claim. -/
theorem asan_C5_counterexample :
    (handleTrapX86 ⟨true, false, [], []⟩ 0 0 0 none false none
        (fun _ _ => none)).hooksEnabled = false
  ∧ (handleTrapArm ⟨true, false, [], []⟩ (fun _ => 0) 0 100
        (ArmOperand.regPreIndex 0 0) true (fun _ _ => none)).hooksEnabled = true
  ∧ (handleTrapArm ⟨true, false, [], []⟩ (fun _ => 0) 0 100
        (ArmOperand.regPreIndex 0 0) true (fun _ _ => none)).errors =
      [AsanErr.stackOobRead] := by
  refine ⟨rfl, rfl, rfl⟩

/-- C5 (amended): on x86-64 `handle_trap` sets `hooks_enabled` to false on
entry and never restores it; on AArch64 `handle_trap` does not modify
`hooks_enabled` at all; `post_exec` sets it to false. -/
theorem asan_C5_amended (s : AsanRuntimeState)
    (stackStart stackEnd faultAddress : Nat) (accessType : Option AccessType)
    (regsFound : Bool) (baseValue : Option Nat)
    (fm : Nat → Nat → Option ChunkMetadata) (regs : Nat → Nat)
    (op : ArmOperand) (isLoad : Bool) (a l : Nat) :
    (handleTrapX86 s stackStart stackEnd faultAddress accessType regsFound
        baseValue fm).hooksEnabled = false
  ∧ (handleTrapArm s regs stackStart stackEnd op isLoad fm).hooksEnabled =
      s.hooksEnabled
  ∧ (postExec s a l).hooksEnabled = false := by
  refine ⟨rfl, ?_, ?_⟩
  · unfold handleTrapArm
    cases armClassify regs stackStart stackEnd op isLoad fm <;> rfl
  · unfold postExec rtResetAllocations rtPoison rtDisableHooks rtCheckForLeaks
    cases s.checkForLeaksEnabled <;> rfl

/-- C6 (counterexample): `LDARH` — the load-acquire halfword variant of
`LDAR` — is missing from the ignore list, so an `LDARH` with a recognised
memory operand is instrumented, contradicting the claim for atomic
byte/halfword variants; its sibling `LDARB` is ignored. -/
theorem asan_C6_counterexample :
    asanIsInterestingInstructionArm
        ⟨ArmOpcode.LDARH,
          [ArmOperand.other, ArmOperand.regPreIndex 0 0, ArmOperand.nothing,
            ArmOperand.nothing]⟩ = some (0, none, 0)
  ∧ armIgnoredOpcode ArmOpcode.LDARH = false
  ∧ armIgnoredOpcode ArmOpcode.LDARB = true := by
  refine ⟨rfl, rfl, rfl⟩

/-- C6 (amended): the filter returns `none` for x86-64 `lea` / `nop`, for
`rep`-prefixed x86-64 instructions, and for the 18 AArch64 opcodes of the
code's ignore list — but `LDARH`, an atomic load-acquire halfword, is not
in that list and is instrumented when its memory operand is recognised. -/
theorem asan_C6_amended (insn : X86Insn) (ai : ArmInsn) :
    ((insn.opcode = X86Opcode.lea ∨ insn.opcode = X86Opcode.nop) →
      asanIsInterestingInstructionX86 insn = none)
  ∧ (insn.repAny = true → asanIsInterestingInstructionX86 insn = none)
  ∧ (armIgnoredOpcode ai.opcode = true →
      asanIsInterestingInstructionArm ai = none)
  ∧ (∀ r d,
      asanIsInterestingInstructionArm
        ⟨ArmOpcode.LDARH,
          [ArmOperand.other, ArmOperand.regPreIndex r d, ArmOperand.nothing,
            ArmOperand.nothing]⟩ = some (r, none, d)) := by
  refine ⟨?_, ?_, ?_, ?_⟩
  · rintro (h | h) <;> rw [asanIsInterestingInstructionX86, h]
  · intro h
    cases ho : insn.opcode <;> rw [asanIsInterestingInstructionX86, ho] <;>
      simp [h]
  · intro h
    rw [asanIsInterestingInstructionArm, h]
    rfl
  · intro r d
    rfl

/-- C6 (witness): `lea` is never instrumented. -/
theorem asan_C6_witness :
    asanIsInterestingInstructionX86 ⟨X86Opcode.lea, false, [], 4⟩ = none :=
  (asan_C6_amended ⟨X86Opcode.lea, false, [], 4⟩ ⟨ArmOpcode.LDAR, []⟩).1
    (Or.inl rfl)

/-- C7 (counterexample): the x86-64 handler takes `regs[18]` as the pc
directly, performing no stalked-address lookup — here the map carries
`100 ↦ 200`, the trapped pc is 100, yet the handler decodes at 100; the
AArch64 handler does look it up and decodes at 200. -/
theorem asan_C7_counterexample :
    x86TrapActualPc (fun r => if r = 18 then 100 else 0) = 100
  ∧ List.lookup 100 [(100, 200)] = some 200
  ∧ armTrapActualPc (fun _ => 100) [(100, 200)] = 200 := by
  refine ⟨rfl, rfl, rfl⟩

/-- C7 (amended): only the AArch64 `handle_trap` resolves the trapped pc
through the stalked-address map (`regs[31]`, falling back to the trapped pc
itself); the x86-64 `handle_trap` uses `regs[18]` directly with no
lookup. -/
theorem asan_C7_amended (regs : Nat → Nat) (stalked : List (Nat × Nat))
    (real : Nat) :
    (List.lookup (regs 31) stalked = some real →
      armTrapActualPc regs stalked = real)
  ∧ (List.lookup (regs 31) stalked = none →
      armTrapActualPc regs stalked = regs 31)
  ∧ x86TrapActualPc regs = regs 18 := by
  refine ⟨fun h => ?_, fun h => ?_, rfl⟩
  · rw [armTrapActualPc, h]
  · rw [armTrapActualPc, h]

/-- C7 (witness): a mapped pc is resolved through the map on AArch64. -/
theorem asan_C7_witness :
    armTrapActualPc (fun _ => 100) [(100, 42)] = 42 :=
  (asan_C7_amended (fun _ => 100) [(100, 42)] 42).1 (by decide)

/-- C8: `pre_exec` unpoisons the input range and then enables hooks;
`post_exec` disables hooks, runs leak detection iff
`check_for_leaks_enabled`, poisons the input range and finally resets the
allocator — in exactly that order. -/
theorem asan_C8 (s : AsanRuntimeState) (a l : Nat) :
    (preExec s a l).trace =
      s.trace ++ [RTEvent.unpoison a l, RTEvent.enableHooks]
  ∧ (preExec s a l).hooksEnabled = true
  ∧ (postExec s a l).trace =
      s.trace ++ [RTEvent.disableHooks]
        ++ (if s.checkForLeaksEnabled then [RTEvent.checkForLeaks] else [])
        ++ [RTEvent.poison a l]
        ++ [RTEvent.resetAllocations]
  ∧ (postExec s a l).hooksEnabled = false := by
  refine ⟨?_, rfl, ?_, ?_⟩
  · simp [preExec, rtUnpoison, rtEnableHooks]
  · unfold postExec rtResetAllocations rtPoison rtDisableHooks rtCheckForLeaks
    cases hc : s.checkForLeaksEnabled <;> simp [hc]
  · unfold postExec rtResetAllocations rtPoison rtDisableHooks rtCheckForLeaks
    cases hc : s.checkForLeaksEnabled <;> rfl

/-- C9: blob generation is deterministic — the generated instruction lists
are functions of `shadow_bit` and the width parameter alone, so equal
inputs give byte-for-byte equal blobs. -/
theorem asan_C9 (sb1 sb2 p1 p2 : Nat) (hs : sb1 = sb2) (hp : p1 = p2) :
    generateShadowCheckBlobX86 sb1 p1 = generateShadowCheckBlobX86 sb2 p2
  ∧ generateShadowCheckBlobArm sb1 p1 = generateShadowCheckBlobArm sb2 p2
  ∧ generateShadowCheckExactBlobArm sb1 p1 =
      generateShadowCheckExactBlobArm sb2 p2 := by
  subst hs
  subst hp
  exact ⟨rfl, rfl, rfl⟩

/-- C9 (witness): two generations with `shadow_bit = 8`, parameter 3. -/
theorem asan_C9_witness :
    generateShadowCheckBlobX86 8 3 = generateShadowCheckBlobX86 8 3
  ∧ generateShadowCheckBlobArm 8 3 = generateShadowCheckBlobArm 8 3
  ∧ generateShadowCheckExactBlobArm 8 3 = generateShadowCheckExactBlobArm 8 3 :=
  asan_C9 8 8 3 3 rfl rfl

/-- C10: `real_address_for_stalked` is total: a stalked address present in
the map resolves to its recorded real address, any other address is
returned unchanged. -/
theorem asan_C10 (m : List (Nat × Nat)) (s r : Nat) :
    (List.lookup s m = some r → realAddressForStalked m s = r)
  ∧ (List.lookup s m = none → realAddressForStalked m s = s) := by
  constructor <;> intro h <;> rw [realAddressForStalked, h]

/-- C10 (witness): lookup hit and miss on a one-entry map. -/
theorem asan_C10_witness :
    realAddressForStalked [(7, 9)] 7 = 9 ∧ realAddressForStalked [(7, 9)] 8 = 8 :=
  ⟨(asan_C10 [(7, 9)] 7 9).1 (by decide), (asan_C10 [(7, 9)] 8 8).2 (by decide)⟩

end LibAFLAsan
